import Mathlib

/-! Activity tracker: input monitor, sample store, capture cycle and sync engine.

A shallow embedding of `src/inputTracker.js`, `src/tracker.js` and
`src/networkSync.js`.

* Idle readings are non-NaN numbers (`getIdleSeconds` maps NaN and every failure to
  `null`); they are modelled as rationals, an unreadable counter as `none`.
* The `activities` table is a list of rows; `ORDER BY` is an explicit sort and
  `LIMIT` an explicit `take`, so no query relies on the order rows are held in.
* Everything the methods obtain from outside (idle counter, foreground window, gauges,
  clock, file system, HTTP endpoint) is an explicit argument, and so is whether a
  statement run by the SQL engine or a write of the database file throws.
* A method that can throw returns `Except` together with the state it leaves behind;
  the methods that catch (`captureActivity`, `syncNow`) return the state alone or with
  their result.
* Integers are unbounded (`Int`): the 64-bit rowid ceiling of SQLite and the 2^53
  ceiling of the event counter are out of reach at one row per capture and one event per
  poll. The two engine limits a caller can reach are modelled: a `LIMIT` outside the
  64-bit integers is refused, and so is a statement with more bound variables than the
  engine allows; that bound belongs to the sql.js build, not to the repository, and is a
  parameter (`maxVariables`).
* JavaScript `toLowerCase` is a parameter of the capture environment as well.
* A write of the database file that throws leaves the file untouched or cut short,
  whichever the environment says.
-/

namespace ElectronActivityTracker

/-! ## `src/inputTracker.js` -/

/-- The object returned by `InputTracker.getActivityStats` and accepted by
`ActivityTracker.captureActivity`. `inputEvents` is `none` when the property is not a
number (the `typeof … === 'number'` test of `captureActivity` fails). -/
structure InputStats where
  mouseMovements : Int
  keyPresses : Int
  inputEvents : Option Int
  isActive : Bool
  deriving DecidableEq, Repr

/-- The fields of `InputTracker` that `pollIdleTime` and `getActivityStats` read or write. -/
structure InputTracker where
  lastIdleSeconds : Option ℚ
  inputEvents : Nat
  deriving DecidableEq

/-- The tracker built by the constructor: `lastIdleSeconds = null`, `inputEvents = 0`. -/
def InputTracker.new : InputTracker :=
  { lastIdleSeconds := none, inputEvents := 0 }

/-- Method `pollIdleTime`, given the result `idle` of `getIdleSeconds`. -/
def InputTracker.pollIdleTime (idle : Option ℚ) (t : InputTracker) : InputTracker :=
  match idle with
  | none => t
  | some i =>
    let counted : Nat :=
      match t.lastIdleSeconds with
      | some last => if i < last then t.inputEvents + 1 else t.inputEvents
      | none => t.inputEvents
    { lastIdleSeconds := some i, inputEvents := counted }

/-- Method `getActivityStats`: the stats object and the tracker with the counter reset. -/
def InputTracker.getActivityStats (t : InputTracker) : InputStats × InputTracker :=
  let isActive : Bool := decide (t.inputEvents > 0)
  let stats : InputStats :=
    { mouseMovements := (t.inputEvents : Int)
      keyPresses := 0
      inputEvents := some (t.inputEvents : Int)
      isActive := isActive }
  (stats, { t with inputEvents := 0 })

/-- A run of `pollIdleTime` calls, one per reading, oldest first. -/
def InputTracker.pollAll (readings : List (Option ℚ)) (t : InputTracker) : InputTracker :=
  readings.foldl (fun s r => s.pollIdleTime r) t

/-- The spec's count, written from its words: pair every readable reading with the most
recent readable reading before it (starting from `last`, the last readable reading of the
previous window, if any) and count the pairs where the reading is strictly smaller. -/
def strictDecreases (last : Option ℚ) (readings : List (Option ℚ)) : Nat :=
  let readable : List ℚ := readings.filterMap id
  let earlier : List (Option ℚ) := last :: readable.map some
  ((earlier.zip readable).filter
    (fun p => match p.1 with
      | some q => decide (p.2 < q)
      | none => false)).length

/-- The most recent readable reading after `readings`, starting from `last`. -/
def lastReadable (last : Option ℚ) (readings : List (Option ℚ)) : Option ℚ :=
  match (readings.filterMap id).getLast? with
  | some q => some q
  | none => last

/-! ## `src/tracker.js`: the `activities` table -/

/-- A `DATETIME` value written by `CURRENT_TIMESTAMP`, in seconds. -/
abbrev Timestamp := Nat

/-- One row of the `activities` table, columns as in `CREATE TABLE` (plus the migrated
`input_events`). Nullable columns the code reads back with a fallback are `Option`.
`cpu_usage` and `memory_usage` carry the `toFixed(2)` decimal text. -/
structure Row where
  id : Int
  timestamp : Timestamp
  window_title : String
  process_name : String
  process_path : String
  cpu_usage : String
  memory_usage : String
  platform : String
  browser_url : Option String
  browser_tab_title : Option String
  mouse_movements : Option Int
  is_user_active : Int
  synced : Int
  created_at : Timestamp
  updated_at : Timestamp
  input_events : Option Int
  deriving DecidableEq, Repr

/-- The in-memory sql.js database: the rows of `activities` and the `sqlite_sequence`
entry that `AUTOINCREMENT` keeps for the table (0 when there is none). -/
structure Database where
  activities : List Row
  sequence : Int
  deriving DecidableEq, Repr

/-- The database created by `new SQL.Database()` followed by `CREATE TABLE`. -/
def Database.empty : Database :=
  { activities := [], sequence := 0 }

/-- The `PRIMARY KEY` constraint: no two rows share an id. -/
def Database.WF (db : Database) : Prop :=
  (db.activities.map Row.id).Nodup

instance (db : Database) : Decidable db.WF := by
  unfold Database.WF; infer_instance

/-- The largest rowid of the table, none when it is empty. -/
def maxRowid : List Row → Option Int
  | [] => none
  | r :: rs =>
    match maxRowid rs with
    | none => some r.id
    | some m => some (max r.id m)

/-- The rowid `AUTOINCREMENT` assigns: one more than the largest rowid in the table (1 for
an empty table), and at least one more than the recorded sequence. -/
def Database.newRowid (db : Database) : Int :=
  let v : Int :=
    match maxRowid db.activities with
    | none => 1
    | some m => m + 1
  max v (db.sequence + 1)

/-- The clause `ORDER BY id ASC`. -/
def orderByIdAsc (rows : List Row) : List Row :=
  rows.insertionSort (fun a b => a.id ≤ b.id)

/-- The clause `ORDER BY id DESC`. -/
def orderByIdDesc (rows : List Row) : List Row :=
  rows.insertionSort (fun a b => b.id ≤ a.id)

/-- The values bound to the `INSERT` of `captureActivity`, in the order of its column list. -/
structure InsertValues where
  window_title : String
  process_name : String
  process_path : String
  cpu_usage : String
  memory_usage : String
  platform : String
  browser_url : Option String
  browser_tab_title : Option String
  mouse_movements : Int
  is_user_active : Int
  input_events : Int
  deriving DecidableEq, Repr

/-- The row an `INSERT` creates at time `now`: the bound values, `AUTOINCREMENT` id, and the
column defaults (`timestamp`, `created_at`, `updated_at` = `CURRENT_TIMESTAMP`, `synced` = 0). -/
def Database.insertedRow (db : Database) (now : Timestamp) (v : InsertValues) : Row :=
  { id := db.newRowid
    timestamp := now
    window_title := v.window_title
    process_name := v.process_name
    process_path := v.process_path
    cpu_usage := v.cpu_usage
    memory_usage := v.memory_usage
    platform := v.platform
    browser_url := v.browser_url
    browser_tab_title := v.browser_tab_title
    mouse_movements := some v.mouse_movements
    is_user_active := v.is_user_active
    synced := 0
    created_at := now
    updated_at := now
    input_events := some v.input_events }

/-- The statement `INSERT INTO activities (…) VALUES (…)` of `captureActivity`. -/
def Database.insert (db : Database) (now : Timestamp) (v : InsertValues) : Database :=
  { activities := db.activities ++ [db.insertedRow now v]
    sequence := db.newRowid }

/-- The statement `UPDATE activities SET updated_at = CURRENT_TIMESTAMP, cpu_usage = ?, memory_usage = ?,
input_events = ?, is_user_active = ? WHERE id = ?` of `captureActivity`. -/
def Database.updateSession (db : Database) (now : Timestamp) (cpuUsage memoryUsage : String)
    (inputEvents isUserActive : Int) (id : Int) : Database :=
  { db with
    activities := db.activities.map (fun r =>
      if r.id = id then
        { r with
          updated_at := now
          cpu_usage := cpuUsage
          memory_usage := memoryUsage
          input_events := some inputEvents
          is_user_active := isUserActive }
      else r) }

/-- The statement `UPDATE activities SET synced = 1 WHERE id IN (…)` of `markAsSynced`. -/
def Database.setSynced (db : Database) (ids : List Int) : Database :=
  { db with
    activities := db.activities.map (fun r =>
      if r.id ∈ ids then { r with synced := 1 } else r) }

/-! ## `src/browserExtractor.js` -/

/-- The keys of `supportedBrowsers`. -/
def supportedBrowsers : List String :=
  ["Google Chrome", "Chrome", "Safari", "Brave Browser", "Arc", "Microsoft Edge"]

/-- ASCII case folding, the `toLowerCase` of the sample environments. -/
def asciiLowerCase (s : String) : String :=
  String.mk (s.data.map Char.toLower)

/-- JavaScript `includes`: `sub` occurs in `s` as a contiguous run of characters. -/
def includes (s sub : List Char) : Bool :=
  match s with
  | [] => sub.isEmpty
  | c :: cs => sub.isPrefixOf (c :: cs) || includes cs sub

/-- Method `BrowserExtractor.isBrowser`: the lower-cased process name includes some
lower-cased supported name. `toLowerCase` is the JavaScript built-in, given from outside. -/
def isBrowser (toLowerCase : String → String) (processName : String) : Bool :=
  supportedBrowsers.any (fun browser =>
    includes (toLowerCase processName).data (toLowerCase browser).data)

/-- What `extractBrowserInfo` resolves to when it is not `null`. -/
structure BrowserInfo where
  url : String
  title : Option String
  deriving DecidableEq, Repr

/-! ## `src/tracker.js`: the tracker -/

/-- The `window.owner` of the object `activeWin()` resolves to. An absent property is the empty
string, which the `||` fallbacks treat alike. -/
structure Owner where
  name : String
  path : String
  deriving DecidableEq, Repr

/-- The object `activeWin()` resolves to. -/
structure Window where
  title : String
  owner : Owner
  deriving DecidableEq, Repr

/-- How the `fs.writeFileSync` of `saveDatabase` ends: the whole export is written; or it
throws before the file is opened for writing (no permission, no directory), leaving the
file untouched; or it throws after the file was truncated (a full disk), leaving it cut
short. -/
inductive SaveOutcome where
  | written
  | refused
  | cutShort
  deriving DecidableEq, Repr

/-- Which of the two throwing steps of a store write throws: whether the statement handed
to `db.run` throws (an engine error), and how the `fs.writeFileSync` of `saveDatabase`
ends. -/
structure Faults where
  run : Bool
  save : SaveOutcome
  deriving DecidableEq, Repr

/-- No step throws. -/
def Faults.none : Faults :=
  { run := false, save := SaveOutcome.written }

/-- What one capture cycle obtains from outside: `activeWin()` (rejected, nothing, or a
window), the two gauges, `extractBrowserInfo` (consulted only for a browser),
`process.platform`, the clock, and the faults of the write. -/
structure CaptureEnv where
  window : Except String (Option Window)
  cpuUsage : String
  memoryUsage : String
  browserInfo : Option BrowserInfo
  platform : String
  now : Timestamp
  faults : Faults
  toLowerCase : String → String

/-- The file at `dbPath`: not there, holding a complete export of a database, or cut short
by a write that failed midway. -/
inductive DiskFile where
  | absent
  | holds (db : Database)
  | cutShort
  deriving DecidableEq, Repr

/-- The `ActivityTracker` object: `db`, the in-memory database, and the file at `dbPath`. -/
structure ActivityTracker where
  db : Database
  file : DiskFile
  deriving DecidableEq, Repr

/-- A tracker on a new database, nothing written yet. -/
def ActivityTracker.new : ActivityTracker :=
  { db := Database.empty, file := DiskFile.absent }

/-- Method `saveDatabase`: export the database and write it to `dbPath`. -/
def ActivityTracker.saveDatabase (outcome : SaveOutcome) (t : ActivityTracker) :
    Except String Unit × ActivityTracker :=
  match outcome with
  | .written => (.ok (), { t with file := DiskFile.holds t.db })
  | .refused => (.error "writeFileSync failed", t)
  | .cutShort => (.error "writeFileSync failed", { t with file := DiskFile.cutShort })

/-- The object `getPreviousActivity` builds from the selected columns. -/
structure PreviousRecord where
  id : Int
  process_name : String
  created_at : Timestamp
  deriving DecidableEq, Repr

/-- Method `getPreviousActivity`: `SELECT id, process_name, created_at FROM activities ORDER BY id
DESC LIMIT 1`, or `null`. -/
def ActivityTracker.getPreviousActivity (t : ActivityTracker) : Option PreviousRecord :=
  match (orderByIdDesc t.db.activities).take 1 with
  | [] => none
  | r :: _ => some { id := r.id, process_name := r.process_name, created_at := r.created_at }

/-- A JavaScript `x || fallback` on a string. -/
def orString (x fallback : String) : String :=
  if x = "" then fallback else x

/-- The line `const mouseMovements = inputStats ? inputStats.mouseMovements : 0`. -/
def mouseMovementsOf (inputStats : Option InputStats) : Int :=
  match inputStats with
  | some st => st.mouseMovements
  | none => 0

/-- The line `const isUserActive = inputStats ? (inputStats.isActive ? 1 : 0) : 1`. -/
def isUserActiveOf (inputStats : Option InputStats) : Int :=
  match inputStats with
  | some st => if st.isActive then 1 else 0
  | none => 1

/-- The line `const inputEvents = inputStats && typeof inputStats.inputEvents === 'number'
? inputStats.inputEvents : mouseMovements`. -/
def inputEventsOf (inputStats : Option InputStats) : Int :=
  match inputStats with
  | some st =>
    match st.inputEvents with
    | some n => n
    | none => mouseMovementsOf inputStats
  | none => mouseMovementsOf inputStats

/-- The expression `window.owner.name || 'Unknown'`. -/
def currentProcessOf (window : Window) : String :=
  orString window.owner.name "Unknown"

/-- The values `captureActivity` binds to its `INSERT`. -/
def insertValues (env : CaptureEnv) (window : Window) (inputStats : Option InputStats) :
    InsertValues :=
  let currentProcess := currentProcessOf window
  let browserInfo : Option BrowserInfo :=
    if isBrowser env.toLowerCase currentProcess then env.browserInfo else none
  { window_title := orString window.title "Unknown"
    process_name := currentProcess
    process_path := orString window.owner.path "Unknown"
    cpu_usage := env.cpuUsage
    memory_usage := env.memoryUsage
    platform := env.platform
    browser_url := browserInfo.map (fun b => b.url)
    browser_tab_title := browserInfo.bind (fun b => b.title)
    mouse_movements := mouseMovementsOf inputStats
    is_user_active := isUserActiveOf inputStats
    input_events := inputEventsOf inputStats }

/-- The `INSERT` branch of `captureActivity` followed by `saveDatabase`. -/
def ActivityTracker.insertActivity (env : CaptureEnv) (window : Window)
    (inputStats : Option InputStats) (t : ActivityTracker) :
    Except String Unit × ActivityTracker :=
  if env.faults.run then (.error "db.run failed", t)
  else
    ActivityTracker.saveDatabase env.faults.save
      { t with db := t.db.insert env.now (insertValues env window inputStats) }

/-- The `UPDATE` branch of `captureActivity` followed by `saveDatabase`. -/
def ActivityTracker.updateLoginwindow (env : CaptureEnv) (inputStats : Option InputStats)
    (previousRecord : PreviousRecord) (t : ActivityTracker) :
    Except String Unit × ActivityTracker :=
  if env.faults.run then (.error "db.run failed", t)
  else
    ActivityTracker.saveDatabase env.faults.save
      { t with
        db := t.db.updateSession env.now env.cpuUsage env.memoryUsage
          (inputEventsOf inputStats) (isUserActiveOf inputStats) previousRecord.id }

/-- The body of the `try` block of `captureActivity`: its outcome (`error` when something
threw) and the tracker it leaves. -/
def ActivityTracker.captureActivityTry (env : CaptureEnv) (inputStats : Option InputStats)
    (t : ActivityTracker) : Except String Unit × ActivityTracker :=
  match env.window with
  | .error e => (.error e, t)
  | .ok none => (.ok (), t)
  | .ok (some window) =>
    if currentProcessOf window = "loginwindow" then
      match t.getPreviousActivity with
      | some previousRecord =>
        if previousRecord.process_name = "loginwindow" then
          t.updateLoginwindow env inputStats previousRecord
        else t.insertActivity env window inputStats
      | none => t.insertActivity env window inputStats
    else t.insertActivity env window inputStats

/-- Method `captureActivity`: the `try` block, with whatever it throws caught and logged. -/
def ActivityTracker.captureActivity (env : CaptureEnv) (inputStats : Option InputStats)
    (t : ActivityTracker) : ActivityTracker :=
  (t.captureActivityTry env inputStats).2

/-- The counts of the object `getStats` returns (`dbPath`, a constant, is left out). -/
structure Stats where
  totalRecords : Nat
  unsyncedRecords : Nat
  deriving DecidableEq, Repr

/-- Method `getStats`: `COUNT(*)` of all rows and of the rows `WHERE synced = 0`. -/
def ActivityTracker.getStats (t : ActivityTracker) : Stats :=
  { totalRecords := t.db.activities.length
    unsyncedRecords := (t.db.activities.filter (fun r => decide (r.synced = 0))).length }

/-- The rows of `SELECT * FROM activities WHERE synced = 0 ORDER BY id ASC`. -/
def ActivityTracker.unsyncedRows (t : ActivityTracker) : List Row :=
  orderByIdAsc (t.db.activities.filter (fun r => decide (r.synced = 0)))

/-- The engine accepts the number written after `LIMIT` when it is a 64-bit integer; a
number of magnitude 2^63 or more is read as a real and refused. -/
def limitAccepted (n : Int) : Prop :=
  -(2 ^ 63 : Int) < n ∧ n < (2 ^ 63 : Int)

instance (n : Int) : Decidable (limitAccepted n) := by
  unfold limitAccepted; infer_instance

/-- Method `getUnsyncedActivities(limit)`: the query of `unsyncedRows`, with ` LIMIT limit`
appended when `limit` is truthy. The engine throws on a `LIMIT` it does not accept; a
negative `LIMIT` is no limit. The limit is `none` for a missing argument. -/
def ActivityTracker.getUnsyncedActivities (limit : Option Int) (t : ActivityTracker) :
    Except String (List Row) :=
  match limit with
  | none => .ok t.unsyncedRows
  | some n =>
    if n = 0 then .ok t.unsyncedRows
    else if ¬ limitAccepted n then .error "datatype mismatch"
    else if n < 0 then .ok t.unsyncedRows
    else .ok (t.unsyncedRows.take n.toNat)

/-- Method `markAsSynced(ids)`; `ids` is `none` for a missing (`null`, `undefined`)
argument. The statement has one bound variable per id: the engine refuses it when there
are more than `maxVariables`. -/
def ActivityTracker.markAsSynced (maxVariables : Nat) (faults : Faults)
    (ids : Option (List Int)) (t : ActivityTracker) : Except String Unit × ActivityTracker :=
  match ids with
  | none => (.ok (), t)
  | some l =>
    if l.length = 0 then (.ok (), t)
    else if maxVariables < l.length then (.error "too many SQL variables", t)
    else if faults.run then (.error "db.run failed", t)
    else ActivityTracker.saveDatabase faults.save { t with db := t.db.setSynced l }

/-! ## `src/networkSync.js` -/

/-- One element of `payload.activities`. `cpu_usage` and `memory_usage` stand for the
`parseFloat` of the stored decimal text. -/
structure ActivityRecord where
  id : Int
  timestamp : Timestamp
  window_title : String
  process_name : String
  process_path : String
  cpu_usage : String
  memory_usage : String
  platform : String
  browser_url : Option String
  browser_tab_title : Option String
  mouse_movements : Int
  input_events : Int
  is_user_active : Bool
  created_at : Timestamp
  deriving DecidableEq, Repr

/-- The `metadata` object of the payload. -/
structure Metadata where
  total_records : Nat
  sync_timestamp : Timestamp
  device_platform : String
  deriving DecidableEq, Repr

/-- The request body. -/
structure Payload where
  activities : List ActivityRecord
  metadata : Metadata
  deriving DecidableEq, Repr

/-- A JavaScript `x || y` on a nullable integer column: `x` when it is truthy (neither
`null` nor 0), else `y`. -/
def orInt (x : Option Int) (y : Int) : Int :=
  match x with
  | some n => if n = 0 then y else n
  | none => y

/-- The mapping applied to every unsynced row in `syncNow`. -/
def toActivityRecord (record : Row) : ActivityRecord :=
  { id := record.id
    timestamp := record.timestamp
    window_title := record.window_title
    process_name := record.process_name
    process_path := record.process_path
    cpu_usage := record.cpu_usage
    memory_usage := record.memory_usage
    platform := record.platform
    browser_url := record.browser_url
    browser_tab_title := record.browser_tab_title
    mouse_movements := orInt record.mouse_movements 0
    input_events := orInt record.input_events (orInt record.mouse_movements 0)
    is_user_active := decide (record.is_user_active = 1)
    created_at := record.created_at }

/-- The payload `syncNow` prepares from the unsynced rows. -/
def buildPayload (now : Timestamp) (platform : String) (unsyncedData : List Row) : Payload :=
  { activities := unsyncedData.map toActivityRecord
    metadata :=
      { total_records := unsyncedData.length
        sync_timestamp := now
        device_platform := platform } }

/-- How `axios.post` settles: resolved with a response of the given status, or rejected
with an error of the given message. -/
inductive PostOutcome where
  | response (status : Int)
  | rejected (message : String)
  deriving DecidableEq, Repr

/-- What one `syncNow` obtains from outside: the endpoint (its answer to a request), the
clock, `process.platform`, and, for the store write of `markAsSynced`, the engine's bound
on the variables of a statement and the faults. -/
structure SyncEnv where
  post : Payload → PostOutcome
  now : Timestamp
  platform : String
  maxVariables : Nat
  faults : Faults

/-- The object `syncNow` resolves to: `success` with `synced` or with `error`. -/
structure SyncResult where
  success : Bool
  synced : Option Nat
  error : Option String
  deriving DecidableEq, Repr

/-- One run of `syncNow`: its result, the requests it made, the tracker it leaves. -/
structure SyncRun where
  result : SyncResult
  requests : List Payload
  tracker : ActivityTracker
  deriving DecidableEq, Repr

/-- Method `NetworkSync.syncNow` on the tracker `t`. -/
def syncNow (env : SyncEnv) (t : ActivityTracker) : SyncRun :=
  match t.getUnsyncedActivities none with
  | .error message =>
    { result := { success := false, synced := none, error := some message }
      requests := []
      tracker := t }
  | .ok unsyncedData =>
    if unsyncedData.length = 0 then
      { result := { success := true, synced := some 0, error := none }
        requests := []
        tracker := t }
    else
      let payload := buildPayload env.now env.platform unsyncedData
      match env.post payload with
      | .rejected message =>
        { result := { success := false, synced := none, error := some message }
          requests := [payload]
          tracker := t }
      | .response status =>
        if 200 ≤ status ∧ status < 300 then
          let ids := unsyncedData.map (fun r => r.id)
          match t.markAsSynced env.maxVariables env.faults (some ids) with
          | (.ok (), t1) =>
            { result := { success := true, synced := some unsyncedData.length, error := none }
              requests := [payload]
              tracker := t1 }
          | (.error message, t1) =>
            { result := { success := false, synced := none, error := some message }
              requests := [payload]
              tracker := t1 }
        else
          { result := { success := false, synced := none, error := some ("HTTP " ++ toString status) }
            requests := [payload]
            tracker := t }

/-! ## The operations of the core on the store -/

/-- One operation on the tracker, with everything it obtains from outside: a call of
`captureActivity`, of `markAsSynced` or of `syncNow`. -/
inductive Op where
  | capture (env : CaptureEnv) (inputStats : Option InputStats)
  | mark (maxVariables : Nat) (faults : Faults) (ids : Option (List Int))
  | sync (env : SyncEnv)

/-- The tracker after one operation. An exception thrown by `markAsSynced` leaves the
tracker as the method left it. -/
def Op.apply (op : Op) (t : ActivityTracker) : ActivityTracker :=
  match op with
  | .capture env inputStats => t.captureActivity env inputStats
  | .mark maxVariables faults ids => (t.markAsSynced maxVariables faults ids).2
  | .sync env => (syncNow env t).tracker

/-- The tracker after a sequence of operations, oldest first. -/
def runOps (ops : List Op) (t : ActivityTracker) : ActivityTracker :=
  ops.foldl (fun s op => op.apply s) t

/-- A row is an idle-session row when its process is `loginwindow`. -/
def Row.isIdle (r : Row) : Prop :=
  r.process_name = "loginwindow"

instance (r : Row) : Decidable r.isIdle := by
  unfold Row.isIdle; infer_instance

/-- No two rows that are neighbours in id order are both idle-session rows. -/
def NoAdjacentIdle (rows : List Row) : Prop :=
  List.Chain' (fun a b => ¬ (a.isIdle ∧ b.isIdle)) (orderByIdAsc rows)

/-- The rows are held in strictly ascending id order. -/
def IdOrdered (rows : List Row) : Prop :=
  rows.Pairwise (fun a b => a.id < b.id)

/-- The invariant of the reachable stores: rows held in ascending id order, no two
neighbours both idle-session rows. -/
def StoreInv (db : Database) : Prop :=
  IdOrdered db.activities
    ∧ List.Chain' (fun a b : Row => ¬ (a.isIdle ∧ b.isIdle)) db.activities

instance : IsTotal Row (fun a b => b.id ≤ a.id) := ⟨fun a b => Int.le_total b.id a.id⟩
instance : IsTrans Row (fun a b => b.id ≤ a.id) := ⟨fun _ _ _ h1 h2 => Int.le_trans h2 h1⟩
instance : IsTotal Row (fun a b => a.id ≤ b.id) := ⟨fun a b => Int.le_total a.id b.id⟩
instance : IsTrans Row (fun a b => a.id ≤ b.id) := ⟨fun _ _ _ h1 h2 => Int.le_trans h1 h2⟩

/-! ## Sample inputs -/

/-- A capture environment in which nothing throws: the foreground process is `name`, the
clock reads `now`. -/
def sampleCaptureEnv (name : String) (now : Timestamp) : CaptureEnv :=
  { window := .ok (some { title := "Window", owner := { name := name, path := "/Applications" } })
    cpuUsage := "12.50"
    memoryUsage := "40.00"
    browserInfo := none
    platform := "darwin"
    now := now
    faults := Faults.none
    toLowerCase := asciiLowerCase }

/-- The window of `sampleCaptureEnv name now`. -/
def sampleWindow (name : String) : Window :=
  { title := "Window", owner := { name := name, path := "/Applications" } }

/-- The stats `getActivityStats` returns for a count of `n`. -/
def sampleStats (n : Nat) : Option InputStats :=
  some { mouseMovements := n, keyPresses := 0, inputEvents := some n, isActive := decide (n > 0) }

/-- The tracker after one `loginwindow` capture at time 10 with 5 input events. -/
def idleTracker : ActivityTracker :=
  ActivityTracker.new.captureActivity (sampleCaptureEnv "loginwindow" 10) (sampleStats 5)

/-- The only row of `idleTracker`. -/
def idleRow : Row :=
  { id := 1
    timestamp := 10
    window_title := "Window"
    process_name := "loginwindow"
    process_path := "/Applications"
    cpu_usage := "12.50"
    memory_usage := "40.00"
    platform := "darwin"
    browser_url := none
    browser_tab_title := none
    mouse_movements := some 5
    is_user_active := 1
    synced := 0
    created_at := 10
    updated_at := 10
    input_events := some 5 }

/-- The tracker after two captures of other processes: two unsynced rows. -/
def twoRowTracker : ActivityTracker :=
  (ActivityTracker.new.captureActivity (sampleCaptureEnv "Finder" 10) (sampleStats 1)).captureActivity
    (sampleCaptureEnv "Terminal" 20) (sampleStats 0)

/-- The tracker after three captures: three unsynced rows. -/
def threeRowTracker : ActivityTracker :=
  twoRowTracker.captureActivity (sampleCaptureEnv "loginwindow" 30) (sampleStats 2)

/-- A sync environment whose endpoint answers every request with `status`, on an engine
that allows 32766 bound variables (the default of SQLite since 3.32), nothing throwing. -/
def sampleSyncEnv (status : Int) : SyncEnv :=
  { post := fun _ => .response status
    now := 100
    platform := "darwin"
    maxVariables := 32766
    faults := Faults.none }

/-- The environment `sampleSyncEnv status` with a write to disk that throws on a full
disk. -/
def saveFaultSyncEnv (status : Int) : SyncEnv :=
  { sampleSyncEnv status with faults := { run := false, save := SaveOutcome.cutShort } }

/-- The same capture environment with no step of the write throwing. -/
def CaptureEnv.withoutFaults (env : CaptureEnv) : CaptureEnv :=
  { env with faults := Faults.none }

/-- The environment `sampleCaptureEnv name now` with a disk write that throws. -/
def saveFaultEnv (name : String) (now : Timestamp) : CaptureEnv :=
  { sampleCaptureEnv name now with faults := { run := false, save := SaveOutcome.cutShort } }

/-- An input monitor that has counted `n` events since the last drain. -/
def monitorWith (n : Nat) : InputTracker :=
  { lastIdleSeconds := some 1, inputEvents := n }

/-- The clock of the operation, if it is a capture, does not read later than `c`. -/
def Op.clockAtMost (c : Timestamp) : Op → Prop
  | .capture env _ => env.now ≤ c
  | .mark _ _ _ => True
  | .sync _ => True

/-- No capture of the sequence ran with a clock reading later than `c`. -/
def clockAtMost (c : Timestamp) (ops : List Op) : Prop :=
  ∀ op ∈ ops, op.clockAtMost c

/-! ### Facts about the table -/

theorem le_of_maxRowid (rows : List Row) (m : Int) (h : maxRowid rows = some m) :
    ∀ r ∈ rows, r.id ≤ m := by
  induction rows generalizing m with
  | nil => intro r hr; cases hr
  | cons a rs ih =>
    intro r hr
    unfold maxRowid at h
    cases hm : maxRowid rs with
    | none =>
      rw [hm] at h
      cases rs with
      | nil =>
        simp at hr; simp at h; subst hr; omega
      | cons b bs =>
        unfold maxRowid at hm
        cases hb : maxRowid bs <;> rw [hb] at hm <;> simp at hm
    | some k =>
      rw [hm] at h
      simp at h
      rcases List.mem_cons.mp hr with rfl | hr
      · omega
      · have := ih k hm r hr
        omega

theorem maxRowid_isSome_of_mem (rows : List Row) (r : Row) (hr : r ∈ rows) :
    ∃ m, maxRowid rows = some m := by
  cases rows with
  | nil => cases hr
  | cons a rs =>
    unfold maxRowid
    cases maxRowid rs <;> simp

/-- The rowid of an insert is larger than every rowid in the table. -/
theorem lt_newRowid (db : Database) : ∀ r ∈ db.activities, r.id < db.newRowid := by
  intro r hr
  obtain ⟨m, hm⟩ := maxRowid_isSome_of_mem db.activities r hr
  have hle := le_of_maxRowid db.activities m hm r hr
  unfold Database.newRowid
  rw [hm]
  simp only
  omega

/-- A row found by `getPreviousActivity` is a row of the table with the greatest id. -/
theorem getPreviousActivity_some (t : ActivityTracker) (p : PreviousRecord)
    (h : t.getPreviousActivity = some p) :
    ∃ r ∈ t.db.activities, (∀ q ∈ t.db.activities, q.id ≤ r.id)
      ∧ p = { id := r.id, process_name := r.process_name, created_at := r.created_at } := by
  unfold ActivityTracker.getPreviousActivity at h
  have hs : List.Sorted (fun a b : Row => b.id ≤ a.id) (orderByIdDesc t.db.activities) :=
    List.sorted_insertionSort _ _
  have hm : ∀ x, x ∈ orderByIdDesc t.db.activities ↔ x ∈ t.db.activities :=
    fun x => List.mem_insertionSort _
  cases hl : orderByIdDesc t.db.activities with
  | nil => rw [hl] at h; simp at h
  | cons r rest =>
    rw [hl] at h hs
    simp at h
    refine ⟨r, (hm r).mp (by rw [hl]; exact List.mem_cons_self _ _), ?_, h.symm⟩
    intro q hq
    have hq2 : q ∈ r :: rest := by rw [← hl]; exact (hm q).mpr hq
    rcases List.mem_cons.mp hq2 with rfl | hq3
    · exact Int.le_refl _
    · exact List.rel_of_sorted_cons hs q hq3

/-- Method `getPreviousActivity` returns `null` exactly on an empty table. -/
theorem getPreviousActivity_none (t : ActivityTracker) :
    t.getPreviousActivity = none ↔ t.db.activities = [] := by
  unfold ActivityTracker.getPreviousActivity
  have hlen : (orderByIdDesc t.db.activities).length = t.db.activities.length :=
    List.length_insertionSort _ _
  cases hl : orderByIdDesc t.db.activities with
  | nil =>
    rw [hl] at hlen
    simp at hlen
    simp [List.length_eq_zero.mp hlen.symm]
  | cons r rest =>
    rw [hl] at hlen
    simp
    intro h0
    rw [h0] at hlen
    simp at hlen

/-- Under the primary-key constraint a row is determined by its id. -/
theorem row_eq_of_id_eq (db : Database) (hwf : db.WF) (a b : Row)
    (ha : a ∈ db.activities) (hb : b ∈ db.activities) (h : a.id = b.id) : a = b :=
  List.inj_on_of_nodup_map hwf ha hb h

/-! ### The branch a capture cycle takes -/

/-- With a window whose process is `loginwindow` and a greatest-id row that is
`loginwindow` too, the cycle is the `UPDATE` of that row. -/
theorem captureActivityTry_merge (env : CaptureEnv) (inputStats : Option InputStats)
    (t : ActivityTracker) (hwf : t.db.WF) (window : Window)
    (hw : env.window = .ok (some window))
    (hcur : currentProcessOf window = "loginwindow")
    (latest : Row) (hmem : latest ∈ t.db.activities)
    (hmax : ∀ r ∈ t.db.activities, r.id ≤ latest.id)
    (hname : latest.process_name = "loginwindow") :
    t.captureActivityTry env inputStats
      = t.updateLoginwindow env inputStats
          { id := latest.id, process_name := latest.process_name,
            created_at := latest.created_at } := by
  unfold ActivityTracker.captureActivityTry
  rw [hw]
  simp only [hcur, if_true]
  cases hp : t.getPreviousActivity with
  | none =>
    have := (getPreviousActivity_none t).mp hp
    rw [this] at hmem
    cases hmem
  | some p =>
    obtain ⟨r, hr, hrmax, hpr⟩ := getPreviousActivity_some t p hp
    have hid : r.id = latest.id := Int.le_antisymm (hmax r hr) (hrmax latest hmem)
    have hrl : r = latest := row_eq_of_id_eq t.db hwf r latest hr hmem hid
    subst hrl
    subst hpr
    simp only [hname, if_true]

/-- In every other case with a window, the cycle is the `INSERT`. -/
theorem captureActivityTry_insert (env : CaptureEnv) (inputStats : Option InputStats)
    (t : ActivityTracker) (window : Window)
    (hw : env.window = .ok (some window))
    (hnot : ¬ (currentProcessOf window = "loginwindow"
      ∧ ∃ latest ∈ t.db.activities, (∀ r ∈ t.db.activities, r.id ≤ latest.id)
          ∧ latest.process_name = "loginwindow")) :
    t.captureActivityTry env inputStats = t.insertActivity env window inputStats := by
  unfold ActivityTracker.captureActivityTry
  rw [hw]
  by_cases hcur : currentProcessOf window = "loginwindow"
  · simp only [hcur, if_true]
    cases hp : t.getPreviousActivity with
    | none => rfl
    | some p =>
      obtain ⟨r, hr, hrmax, hpr⟩ := getPreviousActivity_some t p hp
      by_cases hn : p.process_name = "loginwindow"
      · exfalso
        apply hnot
        refine ⟨hcur, r, hr, hrmax, ?_⟩
        rw [hpr] at hn
        exact hn
      · simp only [hn, if_false]
  · simp only [hcur, if_false]

/-- A write that reports no exception met no fault. -/
theorem insertActivity_ok (env : CaptureEnv) (window : Window) (inputStats : Option InputStats)
    (t : ActivityTracker) (h : (t.insertActivity env window inputStats).1 = .ok ()) :
    (t.insertActivity env window inputStats).2
      = { db := t.db.insert env.now (insertValues env window inputStats)
          file := DiskFile.holds (t.db.insert env.now (insertValues env window inputStats)) } := by
  unfold ActivityTracker.insertActivity at h ⊢
  cases hr : env.faults.run <;> cases hs : env.faults.save <;>
    simp [hr, hs, ActivityTracker.saveDatabase] at h ⊢

theorem updateLoginwindow_ok (env : CaptureEnv) (inputStats : Option InputStats)
    (p : PreviousRecord) (t : ActivityTracker)
    (h : (t.updateLoginwindow env inputStats p).1 = .ok ()) :
    (t.updateLoginwindow env inputStats p).2
      = { db := t.db.updateSession env.now env.cpuUsage env.memoryUsage
            (inputEventsOf inputStats) (isUserActiveOf inputStats) p.id
          file := DiskFile.holds (t.db.updateSession env.now env.cpuUsage env.memoryUsage
            (inputEventsOf inputStats) (isUserActiveOf inputStats) p.id) } := by
  unfold ActivityTracker.updateLoginwindow at h ⊢
  cases hr : env.faults.run <;> cases hs : env.faults.save <;>
    simp [hr, hs, ActivityTracker.saveDatabase] at h ⊢

/-! ### Facts about the unsynced rows -/

theorem mem_getUnsyncedActivities (t : ActivityTracker) (r : Row) :
    r ∈ t.unsyncedRows ↔ r ∈ t.db.activities ∧ r.synced = 0 := by
  unfold ActivityTracker.unsyncedRows orderByIdAsc
  simp only [List.mem_insertionSort, List.mem_filter, decide_eq_true_eq]

theorem length_getUnsyncedActivities (t : ActivityTracker) :
    (t.unsyncedRows).length = t.getStats.unsyncedRecords := by
  unfold ActivityTracker.unsyncedRows ActivityTracker.getStats orderByIdAsc
  simp only [List.length_insertionSort]

/-- Under the primary-key constraint, the ids of the unsynced rows select exactly the
unsynced rows. -/
theorem id_mem_unsynced_ids (t : ActivityTracker) (hwf : t.db.WF) (r : Row)
    (hr : r ∈ t.db.activities) :
    r.id ∈ (t.unsyncedRows).map (fun x => x.id) ↔ r.synced = 0 := by
  constructor
  · intro h
    obtain ⟨x, hx, hid⟩ := List.mem_map.mp h
    obtain ⟨hxm, hxs⟩ := (mem_getUnsyncedActivities t x).mp hx
    have : x = r := row_eq_of_id_eq t.db hwf x r hxm hr hid
    rw [← this]; exact hxs
  · intro h
    exact List.mem_map.mpr ⟨r, (mem_getUnsyncedActivities t r).mpr ⟨hr, h⟩, rfl⟩

/-- Marking the ids of the unsynced rows rewrites exactly the unsynced rows. -/
theorem setSynced_unsynced_ids (t : ActivityTracker) (hwf : t.db.WF) :
    (t.db.setSynced ((t.unsyncedRows).map (fun x => x.id))).activities
      = t.db.activities.map (fun r => if r.synced = 0 then { r with synced := 1 } else r) := by
  unfold Database.setSynced
  simp only
  apply List.map_congr_left
  intro r hr
  by_cases h : r.synced = 0
  · rw [if_pos ((id_mem_unsynced_ids t hwf r hr).mpr h), if_pos h]
  · rw [if_neg (fun hc => h ((id_mem_unsynced_ids t hwf r hr).mp hc)), if_neg h]

theorem filter_unsynced_after_marking (rows : List Row) :
    (rows.map (fun r => if r.synced = 0 then { r with synced := 1 } else r)).filter
      (fun r => decide (r.synced = 0)) = [] := by
  rw [List.filter_eq_nil_iff]
  intro r hr
  obtain ⟨x, _, hx⟩ := List.mem_map.mp hr
  by_cases h : x.synced = 0
  · rw [if_pos h] at hx
    rw [← hx]; simp
  · rw [if_neg h] at hx
    rw [← hx]; simpa using h

/-! ### What each operation can do to the in-memory database -/

theorem saveDatabase_db (outcome : SaveOutcome) (t : ActivityTracker) :
    (t.saveDatabase outcome).2.db = t.db := by
  unfold ActivityTracker.saveDatabase
  cases outcome <;> rfl

/-- Without a limit the query of `getUnsyncedActivities` runs and gives `unsyncedRows`. -/
theorem getUnsyncedActivities_none (t : ActivityTracker) :
    t.getUnsyncedActivities none = .ok t.unsyncedRows :=
  rfl

/-- The database after a capture cycle: the one before, or the `UPDATE` of the row found by
`getPreviousActivity`, or the `INSERT` when the cycle is not an idle capture on an idle
latest row. -/
theorem captureActivity_db (env : CaptureEnv) (inputStats : Option InputStats)
    (t : ActivityTracker) :
    (t.captureActivity env inputStats).db = t.db
      ∨ (∃ p, t.getPreviousActivity = some p
          ∧ (t.captureActivity env inputStats).db
            = t.db.updateSession env.now env.cpuUsage env.memoryUsage
                (inputEventsOf inputStats) (isUserActiveOf inputStats) p.id)
      ∨ (∃ window, env.window = .ok (some window)
          ∧ ¬ (currentProcessOf window = "loginwindow"
              ∧ ∃ p, t.getPreviousActivity = some p ∧ p.process_name = "loginwindow")
          ∧ (t.captureActivity env inputStats).db
            = t.db.insert env.now (insertValues env window inputStats)) := by
  have hins : ∀ window, (t.insertActivity env window inputStats).2.db = t.db
      ∨ (t.insertActivity env window inputStats).2.db
        = t.db.insert env.now (insertValues env window inputStats) := by
    intro window
    unfold ActivityTracker.insertActivity
    cases env.faults.run
    · right; simp [saveDatabase_db]
    · left; rfl
  have hupd : ∀ p, (t.updateLoginwindow env inputStats p).2.db = t.db
      ∨ (t.updateLoginwindow env inputStats p).2.db
        = t.db.updateSession env.now env.cpuUsage env.memoryUsage
            (inputEventsOf inputStats) (isUserActiveOf inputStats) p.id := by
    intro p
    unfold ActivityTracker.updateLoginwindow
    cases env.faults.run
    · right; simp [saveDatabase_db]
    · left; rfl
  unfold ActivityTracker.captureActivity ActivityTracker.captureActivityTry
  cases hw : env.window with
  | error e => left; rfl
  | ok ow =>
    cases ow with
    | none => left; rfl
    | some window =>
      simp only
      by_cases hcur : currentProcessOf window = "loginwindow"
      · simp only [hcur, if_true]
        cases hp : t.getPreviousActivity with
        | none =>
          simp only
          rcases hins window with h | h
          · left; exact h
          · right; right
            exact ⟨window, rfl, by simp, h⟩
        | some p =>
          simp only
          by_cases hn : p.process_name = "loginwindow"
          · simp only [hn, if_true]
            rcases hupd p with h | h
            · left; exact h
            · right; left; exact ⟨p, rfl, h⟩
          · simp only [hn, if_false]
            rcases hins window with h | h
            · left; exact h
            · right; right
              refine ⟨window, rfl, ?_, h⟩
              rintro ⟨_, q, hq, hqn⟩
              cases hq
              exact hn hqn
      · simp only [hcur, if_false]
        rcases hins window with h | h
        · left; exact h
        · right; right
          exact ⟨window, rfl, fun hc => hcur hc.1, h⟩

theorem markAsSynced_db (maxVariables : Nat) (faults : Faults) (ids : Option (List Int))
    (t : ActivityTracker) :
    (t.markAsSynced maxVariables faults ids).2.db = t.db
      ∨ ∃ l, (t.markAsSynced maxVariables faults ids).2.db = t.db.setSynced l := by
  unfold ActivityTracker.markAsSynced
  cases ids with
  | none => left; rfl
  | some l =>
    simp only
    split
    · left; rfl
    · split
      · left; rfl
      · split
        · left; rfl
        · right; exact ⟨l, by simp [saveDatabase_db]⟩

theorem syncNow_db (env : SyncEnv) (t : ActivityTracker) :
    (syncNow env t).tracker.db = t.db
      ∨ ∃ l, (syncNow env t).tracker.db = t.db.setSynced l := by
  unfold syncNow
  simp only [getUnsyncedActivities_none]
  split
  · left; rfl
  · split
    · left; rfl
    · split
      · split
        · rename_i t1 heq
          have := markAsSynced_db env.maxVariables env.faults
            (some ((t.unsyncedRows).map (fun r => r.id))) t
          rw [heq] at this
          exact this
        · rename_i m t1 heq
          have := markAsSynced_db env.maxVariables env.faults
            (some ((t.unsyncedRows).map (fun r => r.id))) t
          rw [heq] at this
          exact this
      · left; rfl

/-! ### The invariant of the reachable stores -/

theorem wf_of_idOrdered {db : Database} (h : IdOrdered db.activities) : db.WF := by
  unfold Database.WF List.Nodup
  rw [List.pairwise_map]
  exact List.Pairwise.imp (fun hab => Int.ne_of_lt hab) h

theorem orderByIdAsc_of_idOrdered {rows : List Row} (h : IdOrdered rows) :
    orderByIdAsc rows = rows := by
  unfold orderByIdAsc
  apply List.Sorted.insertionSort_eq
  exact List.Pairwise.imp (fun hab => Int.le_of_lt hab) h

theorem le_last_of_idOrdered {rows : List Row} (h : IdOrdered rows) (x : Row)
    (hx : rows.getLast? = some x) : ∀ r ∈ rows, r.id ≤ x.id := by
  obtain ⟨ys, hys⟩ := List.getLast?_eq_some_iff.mp hx
  subst hys
  intro r hr
  unfold IdOrdered at h
  rw [List.pairwise_append] at h
  rcases List.mem_append.mp hr with hr | hr
  · exact Int.le_of_lt (h.2.2 r hr x (List.mem_singleton_self x))
  · rw [List.mem_singleton.mp hr]

/-- A rewrite of rows that keeps every id and process name keeps the invariant. -/
theorem storeInv_map {db : Database} (h : StoreInv db) (f : Row → Row) (seq : Int)
    (hid : ∀ r, (f r).id = r.id) (hname : ∀ r, (f r).process_name = r.process_name) :
    StoreInv { activities := db.activities.map f, sequence := seq } := by
  obtain ⟨h1, h2⟩ := h
  constructor
  · unfold IdOrdered at h1 ⊢
    simp only
    rw [List.pairwise_map]
    exact List.Pairwise.imp (fun {a b} hab => by rw [hid a, hid b]; exact hab) h1
  · simp only
    rw [List.chain'_map]
    exact List.Chain'.imp
      (fun a b hab => by unfold Row.isIdle at hab ⊢; rw [hname a, hname b]; exact hab) h2

theorem storeInv_updateSession {db : Database} (h : StoreInv db) (now : Timestamp)
    (cpu mem : String) (ie ia : Int) (id : Int) :
    StoreInv (db.updateSession now cpu mem ie ia id) := by
  unfold Database.updateSession
  apply storeInv_map h
  · intro r; split <;> rfl
  · intro r; split <;> rfl

theorem storeInv_setSynced {db : Database} (h : StoreInv db) (ids : List Int) :
    StoreInv (db.setSynced ids) := by
  unfold Database.setSynced
  apply storeInv_map h
  · intro r; split <;> rfl
  · intro r; split <;> rfl

/-- On a store satisfying the invariant, `getPreviousActivity` finds the row held last. -/
theorem getPreviousActivity_of_last (t : ActivityTracker) (h : IdOrdered t.db.activities)
    (x : Row) (hx : t.db.activities.getLast? = some x) :
    t.getPreviousActivity
      = some { id := x.id, process_name := x.process_name, created_at := x.created_at } := by
  have hxm : x ∈ t.db.activities := List.mem_of_getLast?_eq_some hx
  cases hp : t.getPreviousActivity with
  | none =>
    have := (getPreviousActivity_none t).mp hp
    rw [this] at hxm
    cases hxm
  | some p =>
    obtain ⟨r, hr, hrmax, hpr⟩ := getPreviousActivity_some t p hp
    have hid : r.id = x.id := Int.le_antisymm (le_last_of_idOrdered h x hx r hr) (hrmax x hxm)
    have : r = x := row_eq_of_id_eq t.db (wf_of_idOrdered h) r x hr hxm hid
    rw [hpr, this]

theorem storeInv_captureActivity (env : CaptureEnv) (inputStats : Option InputStats)
    (t : ActivityTracker) (h : StoreInv t.db) :
    StoreInv (t.captureActivity env inputStats).db := by
  rcases captureActivity_db env inputStats t with he | ⟨p, _, he⟩ | ⟨window, _, hnot, he⟩
  · rw [he]; exact h
  · rw [he]; exact storeInv_updateSession h _ _ _ _ _ _
  · rw [he]
    obtain ⟨h1, h2⟩ := h
    constructor
    · unfold IdOrdered Database.insert
      simp only
      rw [List.pairwise_append]
      refine ⟨h1, List.pairwise_singleton _ _, ?_⟩
      intro a ha b hb
      rw [List.mem_singleton.mp hb]
      exact lt_newRowid t.db a ha
    · unfold Database.insert
      simp only
      apply List.Chain'.append h2 (List.chain'_singleton _)
      intro x hx y hy
      have hx2 : t.db.activities.getLast? = some x := hx
      have hy2 : y = t.db.insertedRow env.now (insertValues env window inputStats) := by
        simpa using hy.symm
      rintro ⟨hxi, hyi⟩
      apply hnot
      constructor
      · rw [hy2] at hyi
        exact hyi
      · exact ⟨_, getPreviousActivity_of_last t h1 x hx2, hxi⟩

theorem storeInv_apply (op : Op) (t : ActivityTracker) (h : StoreInv t.db) :
    StoreInv (op.apply t).db := by
  cases op with
  | capture env inputStats => exact storeInv_captureActivity env inputStats t h
  | mark maxVariables faults ids =>
    rcases markAsSynced_db maxVariables faults ids t with he | ⟨l, he⟩
    · show StoreInv (t.markAsSynced maxVariables faults ids).2.db
      rw [he]; exact h
    · show StoreInv (t.markAsSynced maxVariables faults ids).2.db
      rw [he]; exact storeInv_setSynced h l
  | sync env =>
    rcases syncNow_db env t with he | ⟨l, he⟩
    · show StoreInv (syncNow env t).tracker.db
      rw [he]; exact h
    · show StoreInv (syncNow env t).tracker.db
      rw [he]; exact storeInv_setSynced h l

theorem storeInv_runOps (ops : List Op) (t : ActivityTracker) (h : StoreInv t.db) :
    StoreInv (runOps ops t).db := by
  induction ops generalizing t with
  | nil => exact h
  | cons op ops ih => exact ih (op.apply t) (storeInv_apply op t h)

theorem storeInv_new : StoreInv ActivityTracker.new.db :=
  ⟨List.Pairwise.nil, List.chain'_nil⟩

/-! ### The input monitor counts strict decreases -/

theorem strictDecreases_nil (last : Option ℚ) : strictDecreases last [] = 0 := by
  simp [strictDecreases]

theorem strictDecreases_none (last : Option ℚ) (rs : List (Option ℚ)) :
    strictDecreases last (none :: rs) = strictDecreases last rs := by
  simp [strictDecreases]

theorem strictDecreases_some (last : Option ℚ) (i : ℚ) (rs : List (Option ℚ)) :
    strictDecreases last (some i :: rs)
      = (match last with
          | some q => if i < q then 1 else 0
          | none => 0) + strictDecreases (some i) rs := by
  cases last with
  | none => simp [strictDecreases]
  | some q =>
    by_cases h : i < q
    · simp [strictDecreases, h, Nat.add_comm]
    · simp [strictDecreases, h]

theorem lastReadable_none (last : Option ℚ) (rs : List (Option ℚ)) :
    lastReadable last (none :: rs) = lastReadable last rs := by
  simp [lastReadable]

theorem lastReadable_some (last : Option ℚ) (i : ℚ) (rs : List (Option ℚ)) :
    lastReadable last (some i :: rs) = lastReadable (some i) rs := by
  have e : (some i :: rs).filterMap id = i :: rs.filterMap id := by simp
  unfold lastReadable
  rw [e]
  cases h : (rs.filterMap id) with
  | nil => simp
  | cons a l =>
    rw [List.getLast?_cons_cons]
    have hs : (a :: l).getLast? = some ((a :: l).getLast (List.cons_ne_nil a l)) :=
      List.getLast?_eq_getLast _ _
    rw [hs]

theorem pollAll_state (rs : List (Option ℚ)) (t : InputTracker) :
    (InputTracker.pollAll rs t).inputEvents
        = t.inputEvents + strictDecreases t.lastIdleSeconds rs
      ∧ (InputTracker.pollAll rs t).lastIdleSeconds = lastReadable t.lastIdleSeconds rs := by
  induction rs generalizing t with
  | nil => simp [InputTracker.pollAll, strictDecreases_nil, lastReadable]
  | cons r rs ih =>
    have step : InputTracker.pollAll (r :: rs) t
        = InputTracker.pollAll rs (t.pollIdleTime r) := rfl
    rw [step]
    obtain ⟨h1, h2⟩ := ih (t.pollIdleTime r)
    rw [h1, h2]
    cases r with
    | none => simp [InputTracker.pollIdleTime, strictDecreases_none, lastReadable_none]
    | some i =>
      rw [strictDecreases_some, lastReadable_some]
      cases hl : t.lastIdleSeconds with
      | none => simp [InputTracker.pollIdleTime, hl]
      | some q =>
        by_cases h : i < q
        · simp [InputTracker.pollIdleTime, hl, h, Nat.add_assoc]
        · simp [InputTracker.pollIdleTime, hl, h]

/-- C1. After a drain of any tracker `t`, polling any sequence of readings and draining
again returns (as `inputEvents` and as `mouseMovements`) the number of readable readings
that are strictly less than the most recent earlier readable reading, the last readable
reading before the previous drain included; `isActive` says whether that number is
positive; a drain right after returns 0; an unreadable reading leaves the tracker as it
is, and `lastIdleSeconds` ends at the most recent readable reading. -/
theorem C1_drain_counts_strict_decreases (t : InputTracker) (readings : List (Option ℚ)) :
    (InputTracker.getActivityStats
        (InputTracker.pollAll readings t.getActivityStats.2)).1.inputEvents
        = some (strictDecreases t.lastIdleSeconds readings : Int)
      ∧ (InputTracker.getActivityStats
          (InputTracker.pollAll readings t.getActivityStats.2)).1.mouseMovements
        = (strictDecreases t.lastIdleSeconds readings : Int)
      ∧ (InputTracker.getActivityStats
          (InputTracker.pollAll readings t.getActivityStats.2)).1.isActive
        = decide (0 < strictDecreases t.lastIdleSeconds readings)
      ∧ (InputTracker.getActivityStats
          (InputTracker.getActivityStats
            (InputTracker.pollAll readings t.getActivityStats.2)).2).1.inputEvents = some 0
      ∧ (InputTracker.pollAll readings t.getActivityStats.2).lastIdleSeconds
        = lastReadable t.lastIdleSeconds readings
      ∧ ∀ s : InputTracker, s.pollIdleTime none = s := by
  obtain ⟨h1, h2⟩ := pollAll_state readings t.getActivityStats.2
  have e0 : t.getActivityStats.2.inputEvents = 0 := rfl
  have el : t.getActivityStats.2.lastIdleSeconds = t.lastIdleSeconds := rfl
  rw [e0, el, Nat.zero_add] at h1
  rw [el] at h2
  have a1 : ∀ s : InputTracker, s.getActivityStats.1.inputEvents = some (s.inputEvents : Int) :=
    fun _ => rfl
  have a2 : ∀ s : InputTracker, s.getActivityStats.1.mouseMovements = (s.inputEvents : Int) :=
    fun _ => rfl
  have a3 : ∀ s : InputTracker, s.getActivityStats.1.isActive = decide (s.inputEvents > 0) :=
    fun _ => rfl
  refine ⟨?_, ?_, ?_, rfl, h2, fun _ => rfl⟩
  · rw [a1, h1]
  · rw [a2, h1]
  · rw [a3, h1]

/-- C1, the spec's scenario: readings 10, 10, 3, 3, 8 polled by a fresh tracker give
exactly one event. -/
theorem C1_scenario :
    (InputTracker.getActivityStats
        (InputTracker.pollAll [some 10, some 10, some 3, some 3, some 8]
          InputTracker.new.getActivityStats.2)).1.inputEvents = some 1 :=
  (C1_drain_counts_strict_decreases InputTracker.new
    [some 10, some 10, some 3, some 3, some 8]).1.trans (by decide)

/-! ### C2: what a capture cycle does to the store -/

/-- C2. For every store satisfying the primary-key constraint and every capture cycle
whose `try` block raises no exception: with no window the tracker is unchanged; with
a `loginwindow` window and a greatest-id row that is `loginwindow`, the rows keep their
number and positions and exactly that row is rewritten (the five columns of the
`UPDATE`), every other row being the same; in every other case the rows are the old
rows, unchanged, followed by one new row, whose id is greater than every old id. -/
theorem C2_capture_cycle (env : CaptureEnv) (inputStats : Option InputStats)
    (t : ActivityTracker) (hwf : t.db.WF)
    (hok : (t.captureActivityTry env inputStats).1 = .ok ()) :
    (env.window = .ok none → t.captureActivity env inputStats = t)
      ∧ ∀ window, env.window = .ok (some window) →
        (∀ latest ∈ t.db.activities, (∀ r ∈ t.db.activities, r.id ≤ latest.id) →
          latest.process_name = "loginwindow" →
          currentProcessOf window = "loginwindow" →
          (t.captureActivity env inputStats).db.activities.length = t.db.activities.length
            ∧ (t.captureActivity env inputStats).db.activities
              = t.db.activities.map (fun r =>
                  if r.id = latest.id then
                    { r with
                      updated_at := env.now
                      cpu_usage := env.cpuUsage
                      memory_usage := env.memoryUsage
                      input_events := some (inputEventsOf inputStats)
                      is_user_active := isUserActiveOf inputStats }
                  else r))
        ∧ (¬ (currentProcessOf window = "loginwindow"
              ∧ ∃ latest ∈ t.db.activities, (∀ r ∈ t.db.activities, r.id ≤ latest.id)
                  ∧ latest.process_name = "loginwindow") →
            ∃ row : Row,
              (t.captureActivity env inputStats).db.activities = t.db.activities ++ [row]
                ∧ (∀ r ∈ t.db.activities, r.id < row.id)
                ∧ row.process_name = currentProcessOf window
                ∧ row.synced = 0) := by
  constructor
  · intro hw
    unfold ActivityTracker.captureActivity ActivityTracker.captureActivityTry
    rw [hw]
  · intro window hw
    constructor
    · intro latest hmem hmax hname hcur
      have hm := captureActivityTry_merge env inputStats t hwf window hw hcur latest hmem hmax hname
      unfold ActivityTracker.captureActivity
      rw [hm] at hok ⊢
      rw [updateLoginwindow_ok env inputStats _ t hok]
      simp [Database.updateSession]
    · intro hnot
      have hi := captureActivityTry_insert env inputStats t window hw hnot
      unfold ActivityTracker.captureActivity
      rw [hi] at hok ⊢
      rw [insertActivity_ok env window inputStats t hok]
      refine ⟨t.db.insertedRow env.now (insertValues env window inputStats), rfl, ?_, rfl, rfl⟩
      exact lt_newRowid t.db

/-- C2 at a concrete cycle: a `loginwindow` capture on a store whose only row is
`loginwindow` keeps the number of rows. -/
theorem C2_capture_cycle_witness :
    idleTracker.db.WF
      ∧ (idleTracker.captureActivityTry (sampleCaptureEnv "loginwindow" 20) (sampleStats 0)).1
        = .ok ()
      ∧ (idleTracker.captureActivity (sampleCaptureEnv "loginwindow" 20)
          (sampleStats 0)).db.activities.length = idleTracker.db.activities.length :=
  ⟨by decide, rfl,
    (((C2_capture_cycle (sampleCaptureEnv "loginwindow" 20) (sampleStats 0) idleTracker
      (by decide) rfl).2 (sampleWindow "loginwindow") rfl).1 idleRow (by decide) (by decide)
      rfl rfl).1⟩

/-! ### C3, C4: one run of `syncNow` -/

/-- An id list the engine refuses, or an `UPDATE` that throws: `markAsSynced` throws and
leaves the tracker as it is. -/
theorem markAsSynced_refused (maxVariables : Nat) (faults : Faults) (l : List Int)
    (t : ActivityTracker) (hne : l.length ≠ 0)
    (h : maxVariables < l.length ∨ faults.run = true) :
    ∃ message, t.markAsSynced maxVariables faults (some l) = (.error message, t) := by
  unfold ActivityTracker.markAsSynced
  simp only [hne, if_false]
  by_cases hmax : maxVariables < l.length
  · exact ⟨_, by rw [if_pos hmax]⟩
  · rcases h with h | h
    · exact absurd h hmax
    · exact ⟨_, by rw [if_neg hmax, if_pos h]⟩

/-- An id list the engine accepts and an `UPDATE` that runs: `markAsSynced` is the write of
the marked database to disk. -/
theorem markAsSynced_run (maxVariables : Nat) (faults : Faults) (l : List Int)
    (t : ActivityTracker) (hne : l.length ≠ 0) (hmax : l.length ≤ maxVariables)
    (hrun : faults.run = false) :
    t.markAsSynced maxVariables faults (some l)
      = ActivityTracker.saveDatabase faults.save { t with db := t.db.setSynced l } := by
  unfold ActivityTracker.markAsSynced
  have h1 : ¬ maxVariables < l.length := by omega
  simp [hne, h1, hrun]

/-- After a 2xx answer `syncNow` is decided by `markAsSynced` on the ids it sent. -/
theorem syncNow_after_2xx (env : SyncEnv) (t : ActivityTracker)
    (hne : t.unsyncedRows.length ≠ 0) (status : Int)
    (hpost : env.post (buildPayload env.now env.platform t.unsyncedRows) = .response status)
    (hlo : 200 ≤ status) (hhi : status < 300) :
    syncNow env t
      = match t.markAsSynced env.maxVariables env.faults
            (some (t.unsyncedRows.map (fun r => r.id))) with
        | (.ok (), t1) =>
          { result := { success := true, synced := some t.unsyncedRows.length, error := none }
            requests := [buildPayload env.now env.platform t.unsyncedRows]
            tracker := t1 }
        | (.error message, t1) =>
          { result := { success := false, synced := none, error := some message }
            requests := [buildPayload env.now env.platform t.unsyncedRows]
            tracker := t1 } := by
  unfold syncNow
  simp only [getUnsyncedActivities_none, hne, if_false, hpost, hlo, hhi, and_self, if_true]

/-- C3, as amended. With no unsynced row, `syncNow` returns success with 0 synced, makes
no request and leaves the tracker as it is, whatever the endpoint and the environment.
With n > 0 unsynced rows in a store satisfying the primary-key constraint and an endpoint
that answers the request with a 2xx status, `syncNow` makes one request whose ids are
exactly the ids of the unsynced rows, and then: when `markAsSynced` does not throw (n is
within the engine's bound on the variables of a statement, the `UPDATE` runs and the
write to disk completes) it returns success with n synced, every row that was unsynced
has `synced = 1` and is otherwise the same, every other row is the same, and
`getStats().unsyncedRecords` is 0; when n is over the engine's bound or the `UPDATE`
throws it returns `success = false` with an error and the tracker is unchanged; when the
write to disk throws it returns `success = false` with an error while the rows are marked
in memory as in the first case. -/
theorem C3_syncNow_2xx (env : SyncEnv) (t : ActivityTracker) :
    (t.getStats.unsyncedRecords = 0 →
        syncNow env t
          = { result := { success := true, synced := some 0, error := none }
              requests := []
              tracker := t })
      ∧ (0 < t.getStats.unsyncedRecords → t.db.WF →
          ∀ status : Int,
            env.post (buildPayload env.now env.platform t.unsyncedRows) = .response status →
            200 ≤ status → status < 300 →
            (syncNow env t).requests = [buildPayload env.now env.platform t.unsyncedRows]
              ∧ (∀ r ∈ t.db.activities,
                  (r.id ∈ (buildPayload env.now env.platform
                      t.unsyncedRows).activities.map (fun a => a.id)
                    ↔ r.synced = 0))
              ∧ (t.getStats.unsyncedRecords ≤ env.maxVariables → env.faults.run = false →
                  env.faults.save = SaveOutcome.written →
                  (syncNow env t).result
                      = { success := true, synced := some t.getStats.unsyncedRecords,
                          error := none }
                    ∧ (syncNow env t).tracker.db.activities
                      = t.db.activities.map
                          (fun r => if r.synced = 0 then { r with synced := 1 } else r)
                    ∧ (syncNow env t).tracker.getStats.unsyncedRecords = 0
                    ∧ (syncNow env t).tracker.getStats.totalRecords = t.getStats.totalRecords)
              ∧ ((env.maxVariables < t.getStats.unsyncedRecords ∨ env.faults.run = true) →
                  (syncNow env t).result.success = false
                    ∧ (syncNow env t).result.error.isSome = true
                    ∧ (syncNow env t).tracker = t)
              ∧ (t.getStats.unsyncedRecords ≤ env.maxVariables → env.faults.run = false →
                  env.faults.save ≠ SaveOutcome.written →
                  (syncNow env t).result.success = false
                    ∧ (syncNow env t).result.error.isSome = true
                    ∧ (syncNow env t).tracker.db.activities
                      = t.db.activities.map
                          (fun r => if r.synced = 0 then { r with synced := 1 } else r)
                    ∧ (syncNow env t).tracker.getStats.unsyncedRecords = 0)) := by
  constructor
  · intro h0
    unfold syncNow
    simp only [getUnsyncedActivities_none, length_getUnsyncedActivities, h0, if_true]
  · intro hpos hwf status hpost hlo hhi
    have hlen := length_getUnsyncedActivities t
    have hne : t.unsyncedRows.length ≠ 0 := by omega
    have hidlen : (t.unsyncedRows.map (fun r => r.id)).length = t.getStats.unsyncedRecords := by
      rw [List.length_map, hlen]
    have hidne : (t.unsyncedRows.map (fun r => r.id)).length ≠ 0 := by omega
    have hsync := syncNow_after_2xx env t hne status hpost hlo hhi
    have hrows := setSynced_unsynced_ids t hwf
    have hstats : ∀ (f : DiskFile),
        (ActivityTracker.getStats
          { db := t.db.setSynced (t.unsyncedRows.map (fun r => r.id)), file := f }).unsyncedRecords
          = 0 := by
      intro f
      unfold ActivityTracker.getStats
      simp only
      rw [hrows, filter_unsynced_after_marking]
      rfl
    refine ⟨?_, ?_, ?_, ?_, ?_⟩
    · rw [hsync]
      split <;> rfl
    · intro r hr
      have := id_mem_unsynced_ids t hwf r hr
      simpa [buildPayload, toActivityRecord, List.map_map, Function.comp_def] using this
    · intro hmax hrun hsave
      have hm := markAsSynced_run env.maxVariables env.faults _ t hidne (by omega) hrun
      rw [hsave] at hm
      rw [hsync, hm]
      simp only [ActivityTracker.saveDatabase]
      refine ⟨by rw [hlen], hrows, hstats _, ?_⟩
      unfold ActivityTracker.getStats
      simp only
      rw [hrows, List.length_map]
    · intro h
      obtain ⟨message, hm⟩ := markAsSynced_refused env.maxVariables env.faults _ t hidne
        (by rcases h with h | h
            · left; omega
            · right; exact h)
      rw [hsync, hm]
      exact ⟨rfl, rfl, rfl⟩
    · intro hmax hrun hsave
      have hm := markAsSynced_run env.maxVariables env.faults _ t hidne (by omega) hrun
      rw [hsync, hm]
      cases hs : env.faults.save with
      | written => exact absurd hs hsave
      | refused =>
        simp only [ActivityTracker.saveDatabase]
        exact ⟨trivial, rfl, hrows, hstats _⟩
      | cutShort =>
        simp only [ActivityTracker.saveDatabase]
        exact ⟨trivial, rfl, hrows, hstats _⟩

/-- C3 at the spec's scenario: three unsynced rows and a 200 response, nothing throwing. -/
theorem C3_syncNow_2xx_witness :
    0 < threeRowTracker.getStats.unsyncedRecords
      ∧ threeRowTracker.db.WF
      ∧ (syncNow (sampleSyncEnv 200) threeRowTracker).result
        = { success := true, synced := some 3, error := none }
      ∧ (syncNow (sampleSyncEnv 200) threeRowTracker).tracker.getStats.unsyncedRecords = 0 :=
  ⟨by decide, by decide,
    (((C3_syncNow_2xx (sampleSyncEnv 200) threeRowTracker).2 (by decide) (by decide)
      200 rfl (by decide) (by decide)).2.2.1 (by decide) rfl rfl).1,
    (((C3_syncNow_2xx (sampleSyncEnv 200) threeRowTracker).2 (by decide) (by decide)
      200 rfl (by decide) (by decide)).2.2.1 (by decide) rfl rfl).2.2.1⟩

/-- C3 as stated fails when the write to disk of `markAsSynced` throws: with three
unsynced rows and a 200 response `syncNow` returns `success = false`, although the three
rows are marked in memory. -/
theorem C3_write_fault_counterexample :
    threeRowTracker.getStats.unsyncedRecords = 3
      ∧ (syncNow (saveFaultSyncEnv 200) threeRowTracker).result
        = { success := false, synced := none, error := some "writeFileSync failed" }
      ∧ (syncNow (saveFaultSyncEnv 200) threeRowTracker).tracker.getStats.unsyncedRecords
        = 0 := by
  refine ⟨by decide, by decide, by decide⟩

/-- C4. With at least one unsynced row and an endpoint that answers the request with a
status outside 200..299 or whose request is rejected (a transport failure), `syncNow`
returns `success = false` with an error, after one request, and the tracker (every row,
the written file) is the one before the call, so `getStats()` is the same. -/
theorem C4_syncNow_failure (env : SyncEnv) (t : ActivityTracker)
    (hpos : 0 < t.getStats.unsyncedRecords)
    (hfail : (∃ status : Int,
          env.post (buildPayload env.now env.platform (t.unsyncedRows))
            = .response status ∧ ¬ (200 ≤ status ∧ status < 300))
        ∨ ∃ message : String,
          env.post (buildPayload env.now env.platform (t.unsyncedRows))
            = .rejected message) :
    (syncNow env t).result.success = false
      ∧ (syncNow env t).result.error.isSome = true
      ∧ (syncNow env t).result.synced = none
      ∧ (syncNow env t).tracker = t
      ∧ (syncNow env t).tracker.getStats = t.getStats
      ∧ (syncNow env t).requests
        = [buildPayload env.now env.platform (t.unsyncedRows)] := by
  have hlen := length_getUnsyncedActivities t
  have hne : ¬ (t.unsyncedRows).length = 0 := by omega
  rcases hfail with ⟨status, hpost, hst⟩ | ⟨message, hpost⟩
  · have hrun : syncNow env t
        = { result := { success := false, synced := none,
                        error := some ("HTTP " ++ toString status) }
            requests := [buildPayload env.now env.platform (t.unsyncedRows)]
            tracker := t } := by
      unfold syncNow
      simp only [getUnsyncedActivities_none, hne, if_false, hpost, hst]
    rw [hrun]
    simp
  · have hrun : syncNow env t
        = { result := { success := false, synced := none, error := some message }
            requests := [buildPayload env.now env.platform (t.unsyncedRows)]
            tracker := t } := by
      unfold syncNow
      simp only [getUnsyncedActivities_none, hne, if_false, hpost]
    rw [hrun]
    simp

/-- C4, the spec's scenario: two unsynced rows and a 500 response leave
`unsyncedRecords` at 2. -/
theorem C4_syncNow_failure_witness :
    twoRowTracker.getStats.unsyncedRecords = 2
      ∧ (syncNow (sampleSyncEnv 500) twoRowTracker).result.success = false
      ∧ (syncNow (sampleSyncEnv 500) twoRowTracker).tracker.getStats.unsyncedRecords = 2 :=
  ⟨by decide,
    (C4_syncNow_failure (sampleSyncEnv 500) twoRowTracker (by decide)
      (Or.inl ⟨500, rfl, by decide⟩)).1,
    (congrArg Stats.unsyncedRecords
      (C4_syncNow_failure (sampleSyncEnv 500) twoRowTracker (by decide)
        (Or.inl ⟨500, rfl, by decide⟩)).2.2.2.2.1).trans (by decide)⟩

/-! ### C5: at most one open idle session -/

/-- C5. In every store reached from the empty store by any sequence of `captureActivity`,
`markAsSynced` and `syncNow` calls, whatever their arguments, what the environment answers
and which writes throw, ids are unique and no two rows that are neighbours in id order
both have process name `loginwindow`. -/
theorem C5_no_adjacent_idle_rows (ops : List Op) :
    (runOps ops ActivityTracker.new).db.WF
      ∧ NoAdjacentIdle (runOps ops ActivityTracker.new).db.activities := by
  have h := storeInv_runOps ops ActivityTracker.new storeInv_new
  refine ⟨wf_of_idOrdered h.1, ?_⟩
  unfold NoAdjacentIdle
  rw [orderByIdAsc_of_idOrdered h.1]
  exact h.2

/-! ### The clock and `updated_at` -/

/-- A capture cycle whose clock does not read later than `c`, on a store in which no
`updated_at` is later than `c`, leaves such a store. -/
theorem captureActivity_updated_at_le (c : Timestamp) (env : CaptureEnv)
    (inputStats : Option InputStats) (t : ActivityTracker) (hnow : env.now ≤ c)
    (h : ∀ r ∈ t.db.activities, r.updated_at ≤ c) :
    ∀ r ∈ (t.captureActivity env inputStats).db.activities, r.updated_at ≤ c := by
  intro r hr
  rcases captureActivity_db env inputStats t with he | ⟨p, _, he⟩ | ⟨window, _, _, he⟩
  · rw [he] at hr
    exact h r hr
  · rw [he] at hr
    unfold Database.updateSession at hr
    obtain ⟨x, hx, hxr⟩ := List.mem_map.mp hr
    by_cases hc : x.id = p.id
    · rw [if_pos hc] at hxr
      rw [← hxr]
      exact hnow
    · rw [if_neg hc] at hxr
      rw [← hxr]
      exact h x hx
  · rw [he] at hr
    unfold Database.insert at hr
    rcases List.mem_append.mp hr with hr | hr
    · exact h r hr
    · rw [List.mem_singleton.mp hr]
      exact hnow

theorem setSynced_updated_at_le (c : Timestamp) (db : Database) (ids : List Int)
    (h : ∀ r ∈ db.activities, r.updated_at ≤ c) :
    ∀ r ∈ (db.setSynced ids).activities, r.updated_at ≤ c := by
  intro r hr
  unfold Database.setSynced at hr
  obtain ⟨x, hx, hxr⟩ := List.mem_map.mp hr
  have : r.updated_at = x.updated_at := by
    rw [← hxr]; split <;> rfl
  rw [this]
  exact h x hx

theorem apply_updated_at_le (c : Timestamp) (op : Op) (t : ActivityTracker)
    (hop : op.clockAtMost c) (h : ∀ r ∈ t.db.activities, r.updated_at ≤ c) :
    ∀ r ∈ (op.apply t).db.activities, r.updated_at ≤ c := by
  cases op with
  | capture env inputStats => exact captureActivity_updated_at_le c env inputStats t hop h
  | mark maxVariables faults ids =>
    show ∀ r ∈ (t.markAsSynced maxVariables faults ids).2.db.activities, r.updated_at ≤ c
    rcases markAsSynced_db maxVariables faults ids t with he | ⟨l, he⟩
    · rw [he]; exact h
    · rw [he]; exact setSynced_updated_at_le c t.db l h
  | sync env =>
    show ∀ r ∈ (syncNow env t).tracker.db.activities, r.updated_at ≤ c
    rcases syncNow_db env t with he | ⟨l, he⟩
    · rw [he]; exact h
    · rw [he]; exact setSynced_updated_at_le c t.db l h

/-- In a store built by operations none of whose captures ran with a clock reading later
than `c`, from a store in which no `updated_at` is later than `c`, no `updated_at` is
later than `c`. -/
theorem runOps_updated_at_le (c : Timestamp) (ops : List Op) (t : ActivityTracker)
    (hops : clockAtMost c ops) (h : ∀ r ∈ t.db.activities, r.updated_at ≤ c) :
    ∀ r ∈ (runOps ops t).db.activities, r.updated_at ≤ c := by
  induction ops generalizing t with
  | nil => exact h
  | cons op ops ih =>
    apply ih (op.apply t)
    · intro o ho
      exact hops o (List.mem_cons_of_mem _ ho)
    · exact apply_updated_at_le c op t (hops op (List.mem_cons_self _ _)) h

/-! ### C6: the frame of an idle-session merge -/

/-- C6, as amended. When a capture cycle merges (a `loginwindow` window, a greatest-id row
`latest` that is `loginwindow`, and an `UPDATE` that runs) on a store satisfying the
primary-key constraint, the rows after are the rows before with `latest` replaced, in
place, by a row that has the new `updated_at` (the clock reading of the merge),
`cpu_usage`, `memory_usage`, `input_events` and `is_user_active`, and the old `id`,
`timestamp`, `created_at`, `window_title`, `process_name`, `process_path`, `platform`,
`browser_url`, `browser_tab_title`, `mouse_movements` and `synced`; every other row is the
same. The new `updated_at` is not earlier than the previous one whenever the store was
built from the empty store by operations none of whose captures ran with a clock reading
later than that of the merge. -/
theorem C6_merge_frame (env : CaptureEnv) (inputStats : Option InputStats)
    (t : ActivityTracker) (hwf : t.db.WF) (window : Window)
    (hw : env.window = .ok (some window))
    (hcur : currentProcessOf window = "loginwindow")
    (latest : Row) (hmem : latest ∈ t.db.activities)
    (hmax : ∀ r ∈ t.db.activities, r.id ≤ latest.id)
    (hname : latest.process_name = "loginwindow")
    (hrun : env.faults.run = false) :
    (t.captureActivity env inputStats).db.activities
        = t.db.activities.map (fun r =>
            if r = latest then
              { id := latest.id
                timestamp := latest.timestamp
                window_title := latest.window_title
                process_name := latest.process_name
                process_path := latest.process_path
                cpu_usage := env.cpuUsage
                memory_usage := env.memoryUsage
                platform := latest.platform
                browser_url := latest.browser_url
                browser_tab_title := latest.browser_tab_title
                mouse_movements := latest.mouse_movements
                is_user_active := isUserActiveOf inputStats
                synced := latest.synced
                created_at := latest.created_at
                updated_at := env.now
                input_events := some (inputEventsOf inputStats) }
            else r)
      ∧ (t.captureActivity env inputStats).db.activities.length = t.db.activities.length
      ∧ (∀ r ∈ t.db.activities, r ≠ latest →
          r ∈ (t.captureActivity env inputStats).db.activities)
      ∧ (∀ ops : List Op, t = runOps ops ActivityTracker.new → clockAtMost env.now ops →
          latest.updated_at ≤ env.now) := by
  have hm := captureActivityTry_merge env inputStats t hwf window hw hcur latest hmem hmax hname
  have hdb : (t.captureActivity env inputStats).db
      = t.db.updateSession env.now env.cpuUsage env.memoryUsage
          (inputEventsOf inputStats) (isUserActiveOf inputStats) latest.id := by
    unfold ActivityTracker.captureActivity
    rw [hm]
    unfold ActivityTracker.updateLoginwindow
    simp [hrun, saveDatabase_db]
  have hrows : (t.captureActivity env inputStats).db.activities
      = t.db.activities.map (fun r =>
          if r = latest then
            { id := latest.id
              timestamp := latest.timestamp
              window_title := latest.window_title
              process_name := latest.process_name
              process_path := latest.process_path
              cpu_usage := env.cpuUsage
              memory_usage := env.memoryUsage
              platform := latest.platform
              browser_url := latest.browser_url
              browser_tab_title := latest.browser_tab_title
              mouse_movements := latest.mouse_movements
              is_user_active := isUserActiveOf inputStats
              synced := latest.synced
              created_at := latest.created_at
              updated_at := env.now
              input_events := some (inputEventsOf inputStats) }
          else r) := by
    rw [hdb]
    unfold Database.updateSession
    simp only
    apply List.map_congr_left
    intro r hr
    by_cases h : r = latest
    · subst h
      simp
    · have hid : ¬ r.id = latest.id :=
        fun hc => h (row_eq_of_id_eq t.db hwf r latest hr hmem hc)
      rw [if_neg hid, if_neg h]
  refine ⟨hrows, ?_, ?_, ?_⟩
  · rw [hrows, List.length_map]
  · intro r hr hne
    rw [hrows]
    exact List.mem_map.mpr ⟨r, hr, by rw [if_neg hne]⟩
  · intro ops ht hclock
    rw [ht] at hmem
    exact runOps_updated_at_le env.now ops ActivityTracker.new hclock
      (fun r hr => by cases hr) latest hmem

/-- C6 at the spec's scenario: two consecutive `loginwindow` captures (at times 10 and 20)
leave one row, whose `created_at` is that of the first capture and whose `updated_at`
is that of the second. -/
theorem C6_merge_frame_witness :
    idleTracker.db.WF
      ∧ (idleTracker.captureActivity (sampleCaptureEnv "loginwindow" 20)
          (sampleStats 0)).db.activities.length = 1
      ∧ (idleTracker.captureActivity (sampleCaptureEnv "loginwindow" 20)
          (sampleStats 0)).db.activities.map (fun r => (r.created_at, r.updated_at))
        = [(10, 20)]
      ∧ idleRow.updated_at ≤ (sampleCaptureEnv "loginwindow" 20).now :=
  ⟨by decide,
    (C6_merge_frame (sampleCaptureEnv "loginwindow" 20) (sampleStats 0) idleTracker (by decide)
      (sampleWindow "loginwindow") rfl rfl idleRow (by decide) (by decide) rfl rfl).2.1,
    (congrArg (List.map (fun r : Row => (r.created_at, r.updated_at)))
      (C6_merge_frame (sampleCaptureEnv "loginwindow" 20) (sampleStats 0) idleTracker (by decide)
        (sampleWindow "loginwindow") rfl rfl idleRow (by decide) (by decide) rfl
        rfl).1).trans (by decide),
    (C6_merge_frame (sampleCaptureEnv "loginwindow" 20) (sampleStats 0) idleTracker (by decide)
      (sampleWindow "loginwindow") rfl rfl idleRow (by decide) (by decide) rfl rfl).2.2.2
      [Op.capture (sampleCaptureEnv "loginwindow" 10) (sampleStats 5)] rfl
      (fun op hop => by
        rw [List.mem_singleton.mp hop]
        exact (by decide : (10 : Nat) ≤ 20))⟩

/-- C6 as stated fails when the clock reads earlier than the stored `updated_at`: the row
written at time 10 and merged at a clock reading of 5 ends with `updated_at = 5`. -/
theorem C6_clock_set_back_counterexample :
    idleTracker.db.activities.map (fun r => (r.id, r.updated_at)) = [(1, 10)]
      ∧ (idleTracker.captureActivity (sampleCaptureEnv "loginwindow" 5)
          (sampleStats 0)).db.activities.map (fun r => (r.id, r.updated_at)) = [(1, 5)]
      ∧ ¬ ∀ r ∈ (idleTracker.captureActivity (sampleCaptureEnv "loginwindow" 5)
            (sampleStats 0)).db.activities, idleRow.updated_at ≤ r.updated_at := by
  refine ⟨by decide, by decide, by decide⟩

/-! ### C7: rows are kept and `synced` never reverses -/

theorem kept_of_map (rows : List Row) (f : Row → Row)
    (hf : ∀ r, (f r).id = r.id ∧ (r.synced = 1 → (f r).synced = 1)) :
    ∀ r ∈ rows, ∃ q ∈ rows.map f, q.id = r.id ∧ (r.synced = 1 → q.synced = 1) :=
  fun r hr => ⟨f r, List.mem_map.mpr ⟨r, hr, rfl⟩, hf r⟩

theorem kept_updateSession (db : Database) (now : Timestamp) (cpu mem : String)
    (ie ia : Int) (id : Int) :
    ∀ r ∈ db.activities, ∃ q ∈ (db.updateSession now cpu mem ie ia id).activities,
      q.id = r.id ∧ (r.synced = 1 → q.synced = 1) := by
  unfold Database.updateSession
  apply kept_of_map
  intro r
  split <;> simp

theorem kept_setSynced (db : Database) (ids : List Int) :
    ∀ r ∈ db.activities, ∃ q ∈ (db.setSynced ids).activities,
      q.id = r.id ∧ (r.synced = 1 → q.synced = 1) := by
  unfold Database.setSynced
  apply kept_of_map
  intro r
  split <;> simp

theorem kept_insert (db : Database) (now : Timestamp) (v : InsertValues) :
    ∀ r ∈ db.activities, ∃ q ∈ (db.insert now v).activities,
      q.id = r.id ∧ (r.synced = 1 → q.synced = 1) :=
  fun r hr => ⟨r, List.mem_append.mpr (Or.inl hr), rfl, id⟩

/-- C7. For every store and every operation of the core (a `captureActivity` that
inserts, merges, skips or fails, a `markAsSynced`, a `syncNow` with any endpoint outcome,
any of them with or without a write that throws): every row of the store before is still
there after, under the same id, and has `synced = 1` after if it had before; and every
row of the store after a `captureActivity` whose id was not in the store before has
`synced = 0`. -/
theorem C7_synced_never_reverses (op : Op) (t : ActivityTracker) :
    (∀ r ∈ t.db.activities, ∃ q ∈ (op.apply t).db.activities,
        q.id = r.id ∧ (r.synced = 1 → q.synced = 1))
      ∧ t.db.activities.length ≤ (op.apply t).db.activities.length
      ∧ ∀ (env : CaptureEnv) (inputStats : Option InputStats),
          ∀ q ∈ (t.captureActivity env inputStats).db.activities,
            (∀ r ∈ t.db.activities, r.id ≠ q.id) → q.synced = 0 := by
  have hsame : ∀ r ∈ t.db.activities, ∃ q ∈ t.db.activities,
      q.id = r.id ∧ (r.synced = 1 → q.synced = 1) := fun r hr => ⟨r, hr, rfl, id⟩
  refine ⟨?_, ?_, ?_⟩
  · cases op with
    | capture env inputStats =>
      show ∀ r ∈ t.db.activities, ∃ q ∈ (t.captureActivity env inputStats).db.activities, _
      rcases captureActivity_db env inputStats t with he | ⟨p, _, he⟩ | ⟨window, _, _, he⟩
      · rw [he]; exact hsame
      · rw [he]; exact kept_updateSession _ _ _ _ _ _ _
      · rw [he]; exact kept_insert _ _ _
    | mark maxVariables faults ids =>
      show ∀ r ∈ t.db.activities,
        ∃ q ∈ (t.markAsSynced maxVariables faults ids).2.db.activities, _
      rcases markAsSynced_db maxVariables faults ids t with he | ⟨l, he⟩
      · rw [he]; exact hsame
      · rw [he]; exact kept_setSynced _ _
    | sync env =>
      show ∀ r ∈ t.db.activities, ∃ q ∈ (syncNow env t).tracker.db.activities, _
      rcases syncNow_db env t with he | ⟨l, he⟩
      · rw [he]; exact hsame
      · rw [he]; exact kept_setSynced _ _
  · cases op with
    | capture env inputStats =>
      show _ ≤ (t.captureActivity env inputStats).db.activities.length
      rcases captureActivity_db env inputStats t with he | ⟨p, _, he⟩ | ⟨window, _, _, he⟩
      · rw [he]
      · rw [he]; simp [Database.updateSession]
      · rw [he]; simp [Database.insert]
    | mark maxVariables faults ids =>
      show _ ≤ (t.markAsSynced maxVariables faults ids).2.db.activities.length
      rcases markAsSynced_db maxVariables faults ids t with he | ⟨l, he⟩
      · rw [he]
      · rw [he]; simp [Database.setSynced]
    | sync env =>
      show _ ≤ (syncNow env t).tracker.db.activities.length
      rcases syncNow_db env t with he | ⟨l, he⟩
      · rw [he]
      · rw [he]; simp [Database.setSynced]
  · intro env inputStats q hq hfresh
    rcases captureActivity_db env inputStats t with he | ⟨p, _, he⟩ | ⟨window, _, _, he⟩
    · rw [he] at hq
      exact absurd rfl (hfresh q hq)
    · rw [he] at hq
      unfold Database.updateSession at hq
      obtain ⟨r, hr, hrq⟩ := List.mem_map.mp hq
      have : q.id = r.id := by rw [← hrq]; split <;> rfl
      exact absurd this.symm (hfresh r hr)
    · rw [he] at hq
      unfold Database.insert at hq
      rcases List.mem_append.mp hq with hq | hq
      · exact absurd rfl (hfresh q hq)
      · rw [List.mem_singleton.mp hq]
        rfl

/-! ### C8: `getUnsyncedActivities` and its limit -/

theorem getUnsyncedActivities_ascending (t : ActivityTracker) (hwf : t.db.WF) :
    (t.unsyncedRows).Pairwise (fun a b => a.id < b.id) := by
  have hs : List.Sorted (fun a b : Row => a.id ≤ b.id) (t.unsyncedRows) := by
    unfold ActivityTracker.unsyncedRows orderByIdAsc
    exact List.sorted_insertionSort _ _
  have hperm : (t.unsyncedRows).Perm
      (t.db.activities.filter (fun r => decide (r.synced = 0))) := by
    unfold ActivityTracker.unsyncedRows orderByIdAsc
    exact List.perm_insertionSort _ _
  have hnd : ((t.unsyncedRows).map Row.id).Nodup := by
    have h1 : ((t.db.activities.filter (fun r => decide (r.synced = 0))).map Row.id).Nodup :=
      List.Nodup.sublist (List.Sublist.map _ (List.filter_sublist _)) hwf
    exact (List.Perm.nodup_iff (List.Perm.map _ hperm)).mpr h1
  unfold List.Nodup at hnd
  rw [List.pairwise_map] at hnd
  have hboth := List.Pairwise.and hs hnd
  exact List.Pairwise.imp (fun {a b} hab => lt_of_le_of_ne hab.1 hab.2) hboth

/-- A limit of 0 is not applied: `if (limit)` is false for it. -/
theorem getUnsyncedActivities_zero (t : ActivityTracker) :
    t.getUnsyncedActivities (some 0) = t.getUnsyncedActivities none := by
  unfold ActivityTracker.getUnsyncedActivities
  simp

/-- C8, as amended. For every store satisfying the primary-key constraint and every limit
that is a positive integer below 2^63, `getUnsyncedActivities(limit)` returns at most
`limit` rows, every returned row has `synced = 0`, the rows are in strictly ascending id
order, and they are the first `limit` rows of the result without a limit, which holds
exactly the unsynced rows of the store. With the limit 0 no `LIMIT` is applied and the
call returns what it returns without a limit. With a limit of 2^63 or more the query
throws. -/
theorem C8_getUnsyncedActivities_limit (t : ActivityTracker) (n : Int) :
    (t.db.WF → 0 < n → n < 2 ^ 63 →
        t.getUnsyncedActivities (some n) = .ok (t.unsyncedRows.take n.toNat)
          ∧ ((t.unsyncedRows.take n.toNat).length : Int) ≤ n
          ∧ (∀ r ∈ t.unsyncedRows.take n.toNat, r.synced = 0)
          ∧ (t.unsyncedRows.take n.toNat).Pairwise (fun a b => a.id < b.id)
          ∧ t.getUnsyncedActivities none = .ok t.unsyncedRows
          ∧ (∀ r, r ∈ t.unsyncedRows ↔ r ∈ t.db.activities ∧ r.synced = 0))
      ∧ t.getUnsyncedActivities (some 0) = .ok t.unsyncedRows
      ∧ (2 ^ 63 ≤ n → t.getUnsyncedActivities (some n) = .error "datatype mismatch") := by
  refine ⟨?_, rfl, ?_⟩
  · intro hwf hn hmax
    have htake : t.getUnsyncedActivities (some n) = .ok (t.unsyncedRows.take n.toNat) := by
      unfold ActivityTracker.getUnsyncedActivities
      have h1 : ¬ (n = 0) := by omega
      have h2 : ¬ (n < 0) := by omega
      have h3 : limitAccepted n := ⟨by omega, hmax⟩
      simp only [h1, h2, h3, not_true_eq_false, if_false]
    refine ⟨htake, ?_, ?_, ?_, rfl, mem_getUnsyncedActivities t⟩
    · have hl : (t.unsyncedRows.take n.toNat).length ≤ n.toNat := by
        rw [List.length_take]
        exact Nat.min_le_left _ _
      have h1 := Int.ofNat_le.mpr hl
      have h2 : (n.toNat : Int) = n := Int.toNat_of_nonneg (by omega)
      omega
    · intro r hr
      exact ((mem_getUnsyncedActivities t r).mp (List.mem_of_mem_take hr)).2
    · exact List.Pairwise.sublist (List.take_sublist _ _) (getUnsyncedActivities_ascending t hwf)
  · intro hbig
    unfold ActivityTracker.getUnsyncedActivities
    have h1 : ¬ (n = 0) := by
      have : (0 : Int) < 2 ^ 63 := by norm_num
      omega
    have h3 : ¬ limitAccepted n := fun h => by
      have := h.2
      omega
    simp only [h1, h3, not_false_eq_true, if_true, if_false]

/-- C8 at a concrete store: of the three unsynced rows, a limit of 2 returns the two with
the lowest ids. -/
theorem C8_getUnsyncedActivities_limit_witness :
    threeRowTracker.db.WF
      ∧ (0 : Int) < 2
      ∧ (2 : Int) < 2 ^ 63
      ∧ threeRowTracker.getUnsyncedActivities (some 2)
        = .ok (threeRowTracker.unsyncedRows.take (2 : Int).toNat)
      ∧ (threeRowTracker.unsyncedRows.take (2 : Int).toNat).map (fun r => r.id) = [1, 2] :=
  ⟨by decide, by decide, by decide,
    ((C8_getUnsyncedActivities_limit threeRowTracker 2).1 (by decide) (by decide)
      (by decide)).1,
    by decide⟩

/-- C8 as stated fails at the limit 0: on the store with two unsynced rows
`getUnsyncedActivities(0)` returns both, which is more than 0 rows. -/
theorem C8_limit_zero_counterexample :
    twoRowTracker.getUnsyncedActivities (some 0) = .ok twoRowTracker.unsyncedRows
      ∧ twoRowTracker.unsyncedRows.map (fun r => (r.id, r.synced)) = [(1, 0), (2, 0)]
      ∧ ¬ (twoRowTracker.unsyncedRows.length ≤ 0) :=
  ⟨rfl, by decide, by decide⟩

/-! ### C9: `markAsSynced` -/

theorem setSynced_setSynced (db : Database) (ids : List Int) :
    (db.setSynced ids).setSynced ids = db.setSynced ids := by
  unfold Database.setSynced
  simp only [List.map_map]
  congr 1
  apply List.map_congr_left
  intro r _
  simp only [Function.comp]
  by_cases h : r.id ∈ ids
  · simp [h]
  · simp [h]

/-- C9, as amended. For every store, every id list and every environment of the call:
with an absent or empty list `markAsSynced` returns and the tracker is unchanged. With a
non-empty list whose length is within the engine's bound on the variables of a statement
and an `UPDATE` that runs, the rows after are the rows before, in place, with `synced = 1`
on exactly those whose id is in the list and nothing else changed (the recorded sequence
included); the call returns without an exception exactly when the write to disk
completes; a second `markAsSynced(ids)` leaves the in-memory store equal to the one after
the first call, and the whole tracker when the write to disk completes. With a list
longer than the engine's bound, or an `UPDATE` that throws, the call throws and the
tracker is unchanged. -/
theorem C9_markAsSynced_idempotent (maxVariables : Nat) (faults : Faults)
    (t : ActivityTracker) (ids : Option (List Int)) :
    ((ids = none ∨ ids = some []) → t.markAsSynced maxVariables faults ids = (.ok (), t))
      ∧ ∀ l : List Int, ids = some l → l ≠ [] →
          (l.length ≤ maxVariables → faults.run = false →
              (t.markAsSynced maxVariables faults ids).2.db.activities
                  = t.db.activities.map (fun r =>
                      if r.id ∈ l then { r with synced := 1 } else r)
                ∧ (t.markAsSynced maxVariables faults ids).2.db.sequence = t.db.sequence
                ∧ ((t.markAsSynced maxVariables faults ids).1 = .ok ()
                    ↔ faults.save = SaveOutcome.written)
                ∧ ((t.markAsSynced maxVariables faults ids).2.markAsSynced maxVariables
                      faults ids).2.db
                  = (t.markAsSynced maxVariables faults ids).2.db
                ∧ (faults.save = SaveOutcome.written →
                    (t.markAsSynced maxVariables faults ids).2.markAsSynced maxVariables
                        faults ids
                      = (.ok (), (t.markAsSynced maxVariables faults ids).2)))
            ∧ ((maxVariables < l.length ∨ faults.run = true) →
                ∃ message,
                  t.markAsSynced maxVariables faults ids = (.error message, t)) := by
  constructor
  · intro h
    rcases h with h | h <;> subst h <;> rfl
  · intro l hl hnil
    subst hl
    have hne : l.length ≠ 0 := fun h => hnil (List.length_eq_zero.mp h)
    constructor
    · intro hmax hrun
      have h1 := markAsSynced_run maxVariables faults l t hne hmax hrun
      have h2 : ∀ f : DiskFile,
          ActivityTracker.markAsSynced maxVariables faults (some l)
              { db := t.db.setSynced l, file := f }
            = ActivityTracker.saveDatabase faults.save
                { db := t.db.setSynced l, file := f } := by
        intro f
        rw [markAsSynced_run maxVariables faults l _ hne hmax hrun]
        simp only [setSynced_setSynced]
      rw [h1]
      cases hs : faults.save with
      | written =>
        simp only [ActivityTracker.saveDatabase]
        refine ⟨by simp [Database.setSynced], rfl, by simp, ?_, ?_⟩
        · rw [h2, hs]; rfl
        · intro _
          rw [h2, hs]; rfl
      | refused =>
        simp only [ActivityTracker.saveDatabase]
        refine ⟨by simp [Database.setSynced], rfl, by simp, ?_, ?_⟩
        · rw [h2, hs]; rfl
        · intro h; cases h
      | cutShort =>
        simp only [ActivityTracker.saveDatabase]
        refine ⟨by simp [Database.setSynced], rfl, by simp, ?_, ?_⟩
        · rw [h2, hs]; rfl
        · intro h; cases h
    · intro h
      exact markAsSynced_refused maxVariables faults l t hne h

/-- C9 at a concrete call: marking id 1 on the store with two unsynced rows, nothing
throwing, returns, marks row 1 only, and a second call changes nothing. -/
theorem C9_markAsSynced_idempotent_witness :
    (twoRowTracker.markAsSynced 32766 Faults.none (some [1])).1 = .ok ()
      ∧ (twoRowTracker.markAsSynced 32766 Faults.none (some [1])).2.db.activities.map
          (fun r => (r.id, r.synced)) = [(1, 1), (2, 0)]
      ∧ (twoRowTracker.markAsSynced 32766 Faults.none (some [1])).2.markAsSynced 32766
          Faults.none (some [1])
        = (.ok (), (twoRowTracker.markAsSynced 32766 Faults.none (some [1])).2) :=
  ⟨((((C9_markAsSynced_idempotent 32766 Faults.none twoRowTracker (some [1])).2 [1] rfl
      (by decide)).1 (by decide) rfl).2.2.1).mpr rfl,
    by decide,
    (((C9_markAsSynced_idempotent 32766 Faults.none twoRowTracker (some [1])).2 [1] rfl
      (by decide)).1 (by decide) rfl).2.2.2.2 rfl⟩

/-- C9 as stated fails in two ways: on an engine that allows 32766 bound variables a list
of 32767 ids makes `markAsSynced` throw and mark nothing; and a write to disk that throws
makes the call throw although the list is short. -/
theorem C9_markAsSynced_throws_counterexample :
    twoRowTracker.markAsSynced 32766 Faults.none (some (List.replicate 32767 1))
        = (.error "too many SQL variables", twoRowTracker)
      ∧ (twoRowTracker.markAsSynced 32766 { run := false, save := SaveOutcome.cutShort }
          (some [1])).1 = .error "writeFileSync failed" := by
  constructor
  · unfold ActivityTracker.markAsSynced
    simp only [List.length_replicate]
    rfl
  · rfl

/-! ### C10: the records of the payload -/

theorem syncNow_requests (env : SyncEnv) (t : ActivityTracker) :
    (syncNow env t).requests = []
      ∨ (syncNow env t).requests = [buildPayload env.now env.platform t.unsyncedRows] := by
  unfold syncNow
  simp only [getUnsyncedActivities_none]
  split
  · left; rfl
  · split
    · right; rfl
    · split
      · split <;> (right; rfl)
      · right; rfl

/-- What a payload of `syncNow` carries: the records are the unsynced rows mapped one by
one, `metadata.total_records` is the number of records, and for every unsynced row the
record's `input_events` is the row's stored `input_events` when that is a non-zero
integer and the row's `mouse_movements` (0 when that is null) when the stored
`input_events` is null or 0; the record's `is_user_active` is true iff the row's
`is_user_active` is 1. -/
theorem payload_fields (env : SyncEnv) (t : ActivityTracker) (payload : Payload)
    (hp : payload ∈ (syncNow env t).requests) :
    payload.activities = t.unsyncedRows.map toActivityRecord
      ∧ payload.metadata.total_records = payload.activities.length
      ∧ ∀ row ∈ t.unsyncedRows,
          (∀ n : Int, row.input_events = some n → n ≠ 0 →
              (toActivityRecord row).input_events = n)
            ∧ ((row.input_events = none ∨ row.input_events = some 0) →
                (toActivityRecord row).input_events = row.mouse_movements.getD 0)
            ∧ ((toActivityRecord row).is_user_active = true ↔ row.is_user_active = 1) := by
  have hpay : payload = buildPayload env.now env.platform t.unsyncedRows := by
    rcases syncNow_requests env t with h | h
    · rw [h] at hp; cases hp
    · rw [h] at hp; exact List.mem_singleton.mp hp
  subst hpay
  refine ⟨rfl, by simp [buildPayload], ?_⟩
  intro row _
  refine ⟨?_, ?_, ?_⟩
  · intro n h hn
    simp [toActivityRecord, orInt, h, hn]
  · intro h
    cases hm : row.mouse_movements with
    | none => rcases h with h | h <;> simp [toActivityRecord, orInt, h, hm]
    | some m =>
      by_cases h0 : m = 0
      · rcases h with h | h <;> simp [toActivityRecord, orInt, h, hm, h0]
      · rcases h with h | h <;> simp [toActivityRecord, orInt, h, hm, h0]
  · simp [toActivityRecord]

/-- C10, at a row whose `input_events` is 0: after a `loginwindow` capture with 5 events
and a second one with 0 events (merged into the same row, which keeps
`mouse_movements = 5`), the stored `input_events` is 0 and the record `syncNow` sends for
the row carries `input_events = 5`, with `is_user_active` false. -/
theorem C10_stored_zero_sent_as_five :
    (idleTracker.captureActivity (sampleCaptureEnv "loginwindow" 20)
        (sampleStats 0)).unsyncedRows.map
          (fun r => (r.input_events, r.mouse_movements))
        = [(some 0, some 5)]
      ∧ (syncNow (sampleSyncEnv 200)
          (idleTracker.captureActivity (sampleCaptureEnv "loginwindow" 20)
            (sampleStats 0))).requests.map
              (fun p => p.activities.map (fun a => (a.id, a.input_events, a.is_user_active)))
        = [[(1, 5, false)]] := by
  constructor <;> decide

/-! ### C11: `is_user_active` and `input_events` of a written row -/

/-- Every row of the store after a capture cycle is a row of the store before or carries
the `is_user_active` and `input_events` computed from `inputStats` in this cycle, be it
the inserted row or the row rewritten by the merge. -/
theorem captureActivity_written (env : CaptureEnv) (inputStats : Option InputStats)
    (t : ActivityTracker) :
    ∀ r ∈ (t.captureActivity env inputStats).db.activities,
      r ∈ t.db.activities
        ∨ (r.is_user_active = isUserActiveOf inputStats
            ∧ r.input_events = some (inputEventsOf inputStats)) := by
  intro r hr
  rcases captureActivity_db env inputStats t with he | ⟨p, _, he⟩ | ⟨window, _, _, he⟩
  · rw [he] at hr
    exact Or.inl hr
  · rw [he] at hr
    unfold Database.updateSession at hr
    obtain ⟨x, hx, hxr⟩ := List.mem_map.mp hr
    by_cases hc : x.id = p.id
    · rw [if_pos hc] at hxr
      right
      rw [← hxr]
      exact ⟨rfl, rfl⟩
    · rw [if_neg hc] at hxr
      left
      rw [← hxr]
      exact hx
  · rw [he] at hr
    unfold Database.insert at hr
    rcases List.mem_append.mp hr with hr | hr
    · exact Or.inl hr
    · right
      rw [List.mem_singleton.mp hr]
      exact ⟨rfl, rfl⟩

/-- The stats object of `getActivityStats` has a numeric `inputEvents` and an `isActive`
that says whether it is positive. -/
theorem getActivityStats_isActive (s : InputTracker) :
    s.getActivityStats.1.inputEvents = some (s.inputEvents : Int)
      ∧ s.getActivityStats.1.isActive = decide (0 < (s.inputEvents : Int)) := by
  refine ⟨rfl, ?_⟩
  show decide (s.inputEvents > 0) = decide (0 < (s.inputEvents : Int))
  simp

/-- C11, as amended. For every capture cycle and every row it writes (the inserted row or
the row rewritten by the merge): when `inputStats` is an object whose `inputEvents` is a
number and whose `isActive` is true exactly when that number is greater than 0 (as in every
object `getActivityStats` returns), the `is_user_active` written is 1 iff the
`input_events` written is greater than 0; when `inputStats` is omitted or null, the row
is written with `is_user_active = 1` and `input_events = 0`. -/
theorem C11_is_user_active_iff_input_events (env : CaptureEnv) (t : ActivityTracker) :
    (∀ (st : InputStats) (n : Int), st.inputEvents = some n → st.isActive = decide (0 < n) →
        ∀ r ∈ (t.captureActivity env (some st)).db.activities,
          r ∈ t.db.activities
            ∨ (r.input_events = some n ∧ (r.is_user_active = 1 ↔ 0 < n)))
      ∧ (∀ r ∈ (t.captureActivity env none).db.activities,
          r ∈ t.db.activities ∨ (r.is_user_active = 1 ∧ r.input_events = some 0)) := by
  constructor
  · intro st n hn hact r hr
    rcases captureActivity_written env (some st) t r hr with h | ⟨h1, h2⟩
    · exact Or.inl h
    · right
      have hie : inputEventsOf (some st) = n := by
        simp [inputEventsOf, hn]
      have hia : isUserActiveOf (some st) = if 0 < n then 1 else 0 := by
        unfold isUserActiveOf
        simp only [hact, decide_eq_true_eq]
      rw [hie] at h2
      rw [hia] at h1
      refine ⟨h2, ?_⟩
      rw [h1]
      by_cases hpos : 0 < n
      · simp [hpos]
      · simp [hpos]
  · intro r hr
    rcases captureActivity_written env none t r hr with h | ⟨h1, h2⟩
    · exact Or.inl h
    · exact Or.inr ⟨h1, h2⟩

/-- C11 at concrete cycles: a capture with the stats of 5 events writes
`is_user_active = 1`, `input_events = 5`; a merge with the stats of 0 events writes
`is_user_active = 0`, `input_events = 0`. -/
theorem C11_is_user_active_iff_input_events_witness :
    (ActivityTracker.new.captureActivity (sampleCaptureEnv "loginwindow" 10)
        (sampleStats 5)).db.activities.map (fun r => (r.is_user_active, r.input_events))
        = [(1, some 5)]
      ∧ (idleTracker.captureActivity (sampleCaptureEnv "loginwindow" 20)
          (sampleStats 0)).db.activities.map (fun r => (r.is_user_active, r.input_events))
        = [(0, some 0)]
      ∧ ∀ r ∈ (idleTracker.captureActivity (sampleCaptureEnv "loginwindow" 20)
            (sampleStats 0)).db.activities,
          r ∈ idleTracker.db.activities
            ∨ (r.input_events = some 0 ∧ (r.is_user_active = 1 ↔ (0 : Int) < 0)) :=
  ⟨by decide, by decide,
    (C11_is_user_active_iff_input_events (sampleCaptureEnv "loginwindow" 20) idleTracker).1
      { mouseMovements := 0, keyPresses := 0, inputEvents := some 0, isActive := false }
      0 rfl (by decide)⟩

/-- C11 as stated fails for an omitted `inputStats`: the capture on the empty store writes
a row with `is_user_active = 1` and `input_events = 0`. -/
theorem C11_null_stats_counterexample :
    (ActivityTracker.new.captureActivity (sampleCaptureEnv "Finder" 10)
        none).db.activities.map (fun r => (r.is_user_active, r.input_events))
      = [(1, some 0)]
      ∧ ¬ ∀ r ∈ (ActivityTracker.new.captureActivity (sampleCaptureEnv "Finder" 10)
            none).db.activities,
          (r.is_user_active = 1 ↔ 0 < r.input_events.getD 0) := by
  constructor <;> decide

/-! ### C12: `mouse_movements` and `input_events` -/

/-- The part of C12 that holds: with the stats of `getActivityStats`, the values bound to
the `INSERT` have `mouse_movements = input_events`, the monitor's count, which is not
negative. -/
theorem insertValues_counts (env : CaptureEnv) (window : Window) (s : InputTracker) :
    (insertValues env window (some s.getActivityStats.1)).mouse_movements = (s.inputEvents : Int)
      ∧ (insertValues env window (some s.getActivityStats.1)).input_events
        = (s.inputEvents : Int)
      ∧ (0 : Int) ≤ (s.inputEvents : Int) :=
  ⟨rfl, rfl, Int.ofNat_nonneg _⟩

/-- C12, at two consecutive `loginwindow` captures from the empty store, fed with the stats
`getActivityStats` returns for a count of 5 and then for a count of 0: the store holds one
row with `mouse_movements = 5` and `input_events = 0`, since the `UPDATE` of the merge
writes `input_events` and not `mouse_movements`. -/
theorem C12_merge_leaves_mouse_movements :
    (runOps
        [Op.capture (sampleCaptureEnv "loginwindow" 10) (some (monitorWith 5).getActivityStats.1),
         Op.capture (sampleCaptureEnv "loginwindow" 20) (some (monitorWith 0).getActivityStats.1)]
        ActivityTracker.new).db.activities.map (fun r => (r.id, r.mouse_movements, r.input_events))
      = [(1, some 5, some 0)] := by
  decide

/-! ### C13: a capture cycle that fails -/

/-- With a window, the cycle is the `INSERT` or the `UPDATE` of some row, and which one
does not depend on the faults. -/
theorem captureActivityTry_branch (env : CaptureEnv) (inputStats : Option InputStats)
    (t : ActivityTracker) (window : Window) (hw : env.window = .ok (some window)) :
    (t.captureActivityTry env inputStats = t.insertActivity env window inputStats
        ∧ t.captureActivityTry env.withoutFaults inputStats
          = t.insertActivity env.withoutFaults window inputStats)
      ∨ ∃ p, t.captureActivityTry env inputStats = t.updateLoginwindow env inputStats p
          ∧ t.captureActivityTry env.withoutFaults inputStats
            = t.updateLoginwindow env.withoutFaults inputStats p := by
  have hw2 : env.withoutFaults.window = .ok (some window) := hw
  unfold ActivityTracker.captureActivityTry
  rw [hw, hw2]
  simp only
  by_cases hcur : currentProcessOf window = "loginwindow"
  · simp only [hcur, if_true]
    cases hp : t.getPreviousActivity with
    | none => left; exact ⟨rfl, rfl⟩
    | some p =>
      simp only
      by_cases hn : p.process_name = "loginwindow"
      · right
        refine ⟨p, ?_, ?_⟩ <;> rw [if_pos hn]
      · left
        constructor <;> rw [if_neg hn]
  · left
    constructor <;> rw [if_neg hcur]

/-- C13, as amended. For every store and every capture cycle whose `try` block raises an
exception, `captureActivity` returns (the exception is caught). When the exception comes
from the window query or from the `INSERT` or `UPDATE` statement, the tracker after the
cycle equals the tracker before: no row is inserted or updated. When it comes from the
write to disk that follows the statement, the in-memory database after the cycle is the
one a cycle without faults leaves: the inserted or updated row stays in memory although
it was not persisted. -/
theorem C13_failed_cycle (env : CaptureEnv) (inputStats : Option InputStats)
    (t : ActivityTracker) (e : String)
    (herr : (t.captureActivityTry env inputStats).1 = .error e) :
    (((∃ m, env.window = .error m) ∨ env.faults.run = true) →
        t.captureActivity env inputStats = t)
      ∧ ((∃ window, env.window = .ok (some window)) → env.faults.run = false →
          env.faults.save ≠ SaveOutcome.written
            ∧ (t.captureActivity env inputStats).db
              = (t.captureActivity env.withoutFaults inputStats).db) := by
  unfold ActivityTracker.captureActivity
  cases hw : env.window with
  | error m =>
    have htry : t.captureActivityTry env inputStats = (.error m, t) := by
      unfold ActivityTracker.captureActivityTry
      rw [hw]
    rw [htry]
    refine ⟨fun _ => rfl, ?_⟩
    rintro ⟨window, hwin⟩
    cases hwin
  | ok ow =>
    cases ow with
    | none =>
      have htry : t.captureActivityTry env inputStats = (.ok (), t) := by
        unfold ActivityTracker.captureActivityTry
        rw [hw]
      rw [htry] at herr
      cases herr
    | some window =>
      have hnf : env.withoutFaults.faults = Faults.none := rfl
      rcases captureActivityTry_branch env inputStats t window hw with ⟨h1, h2⟩ | ⟨p, h1, h2⟩
      · rw [h1] at herr ⊢
        rw [h2]
        unfold ActivityTracker.insertActivity at herr ⊢
        rw [hnf]
        cases hr : env.faults.run <;> cases hs : env.faults.save <;>
          simp [hr, hs, Faults.none, ActivityTracker.saveDatabase] at herr ⊢ <;> rfl
      · rw [h1] at herr ⊢
        rw [h2]
        unfold ActivityTracker.updateLoginwindow at herr ⊢
        rw [hnf]
        cases hr : env.faults.run <;> cases hs : env.faults.save <;>
          simp [hr, hs, Faults.none, ActivityTracker.saveDatabase] at herr ⊢ <;> rfl

/-- C13 at a concrete cycle: a capture on the empty store whose write to disk throws
leaves the in-memory database of the cycle without faults. -/
theorem C13_failed_cycle_witness :
    (ActivityTracker.new.captureActivityTry (saveFaultEnv "Finder" 10) (sampleStats 1)).1
        = .error "writeFileSync failed"
      ∧ (ActivityTracker.new.captureActivity (saveFaultEnv "Finder" 10) (sampleStats 1)).db
        = (ActivityTracker.new.captureActivity (sampleCaptureEnv "Finder" 10)
            (sampleStats 1)).db :=
  ⟨rfl,
    ((C13_failed_cycle (saveFaultEnv "Finder" 10) (sampleStats 1) ActivityTracker.new
      "writeFileSync failed" rfl).2 ⟨sampleWindow "Finder", rfl⟩ rfl).2⟩

/-- C13 as stated fails when the write to disk throws: on the empty store the cycle raises
the exception of `saveDatabase`, yet the in-memory store after the cycle holds the
inserted row: it is not the store before. -/
theorem C13_save_fault_counterexample :
    (ActivityTracker.new.captureActivityTry (saveFaultEnv "Finder" 10) (sampleStats 1)).1
        = .error "writeFileSync failed"
      ∧ ActivityTracker.new.db.activities = []
      ∧ (ActivityTracker.new.captureActivity (saveFaultEnv "Finder" 10)
          (sampleStats 1)).db.activities.map (fun r => (r.id, r.process_name))
        = [(1, "Finder")]
      ∧ (ActivityTracker.new.captureActivity (saveFaultEnv "Finder" 10) (sampleStats 1)).db
        ≠ ActivityTracker.new.db :=
  ⟨rfl, rfl, by decide, by decide⟩

end ElectronActivityTracker
